import Mathlib

/-!
# Verification of the Vector payment-channel engine and router

A shallow embedding, in Lean 4, of the core functions of the Vector
bidirectional payment-channel engine and its routing node:

* `getRebalanceProfile` (router configuration lookup),
* `Vector.executeUpdate` (the leader side of the update protocol, with
  lock acquisition and release),
* `VectorEngine.deposit` (the deposit retry loop),
* `VectorEngine.restoreState` (the restore-state verification procedure),
* `forwardTransferCreation`, `forwardTransferResolution`, `handleIsAlive`
  (the router's forwarding engine and check-in queue drain).

Asynchronous calls to external services (store, messaging, chain reader,
lock service, node service) are modelled by environment records that carry
the result each call would return; each embedded function is a pure
function from its inputs and environment to a result together with the
ordered list of observable effects it performs.  Functions of the router
that are referenced but whose source is not part of this repository
snapshot (`attemptTransferWithCollateralization`, `cancelCreatedTransfer`)
are modelled from the specification and are marked as such in their doc
comments.
-/

/-- Tagged result type mirroring the TypeScript `Result<T, E>` used
throughout the codebase: `Result.ok` wraps a success value, `Result.fail`
wraps a structured error. -/
inductive VResult (α : Type) (ε : Type) where
  | ok (value : α)
  | fail (error : ε)
deriving Repr, DecidableEq

namespace VResult

/-- Mirrors `Result.isError`. -/
def isError {α ε : Type} : VResult α ε → Bool
  | .ok _ => false
  | .fail _ => true

end VResult

/-! ## Router configuration: `getRebalanceProfile` -/

/-- A configured rebalance profile (`config.rebalanceProfiles` entry). -/
structure RebalanceProfile where
  chainId : Nat
  assetId : String
  reclaimThreshold : Nat
  target : Nat
  collateralizeThreshold : Nat
deriving Repr, DecidableEq

/-- The part of the router configuration consulted by
`getRebalanceProfile`. -/
structure RouterConfig where
  rebalanceProfiles : List RebalanceProfile
deriving Repr, DecidableEq

/-- The error context attached to `UnableToGetRebalanceProfile`:
exactly `{ chainId, assetId }`. -/
structure ProfileCtx where
  chainId : Nat
  assetId : String
deriving Repr, DecidableEq

/-- Error type for `getRebalanceProfile`: the single reason
`UnableToGetRebalanceProfile` together with its context. -/
inductive RebalanceErr where
  | UnableToGetRebalanceProfile (context : ProfileCtx)
deriving Repr, DecidableEq

/-- Shallow embedding of `getRebalanceProfile` (router `services/config.ts`):
find the first configured profile matching both asset and chain, else fail
with `UnableToGetRebalanceProfile` carrying `{ chainId, assetId }`. -/
def getRebalanceProfile (config : RouterConfig) (chainId : Nat) (assetId : String) :
    VResult RebalanceProfile RebalanceErr :=
  match config.rebalanceProfiles.find? (fun profile =>
      profile.assetId == assetId && profile.chainId == chainId) with
  | some rebalanceProfile => .ok rebalanceProfile
  | none => .fail (.UnableToGetRebalanceProfile ⟨chainId, assetId⟩)

/-! ## Update protocol: `Vector.executeUpdate` -/

/-- The four update kinds of the protocol (`UpdateType`). -/
inductive UpdateKind where
  | setup
  | deposit
  | create
  | resolve
deriving Repr, DecidableEq

/-- The part of `UpdateParams` consulted by `executeUpdate`: the channel
address, the update kind, and (for `setup`) the counterparty identifier
carried in the details. -/
structure UpdateParamsCore where
  channelAddress : String
  kind : UpdateKind
  counterpartyIdentifier : String
deriving Repr, DecidableEq

/-- The identifiers `executeUpdate` reads from a stored channel. -/
structure StoredChannelIds where
  aliceIdentifier : String
  bobIdentifier : String
deriving Repr, DecidableEq

/-- Observable effects of the protocol layer, in execution order. -/
inductive ProtocolEffect where
  | getChannelState (channelAddress : String)
  | acquireLock (channelAddress : String)
  | outboundExchange (channelAddress : String)
  | emitChannelUpdateEvent (channelAddress : String)
  | releaseLock (channelAddress : String)
deriving Repr, DecidableEq

/-- Reasons of `OutboundChannelUpdateError` that the embedded fragment
distinguishes. -/
inductive OutboundErrorReason where
  | ChannelNotFound
  | BadSignatures
  | other (message : String)
deriving Repr, DecidableEq

/-- Reasons of `InboundChannelUpdateError` that the embedded fragment
distinguishes (they live in a different namespace than the outbound
reasons in the source, hence a separate type). -/
inductive InboundErrorReason where
  | BadSignatures
  | other (message : String)
deriving Repr, DecidableEq

/-- An `OutboundChannelUpdateError` as observed by the engine: its
`message` (the reason) and the optional `counterpartyError` carried in
its context. -/
structure OutboundErr where
  message : OutboundErrorReason
  counterpartyError : Option InboundErrorReason
deriving Repr, DecidableEq

/-- Environment for one run of `executeUpdate`: what the store returns
for the channel lookup and what `sync.outbound` returns. -/
structure ExecuteUpdateEnv where
  channelRes : Option StoredChannelIds
  outboundRes : VResult Unit OutboundErr
deriving Repr, DecidableEq

/-- Shallow embedding of `Vector.lockedOperation`: run the outbound
exchange; on success post the channel-update event.  Returns the result
together with the effects performed while the lock is held. -/
def lockedOperation (params : UpdateParamsCore) (env : ExecuteUpdateEnv) :
    VResult Unit OutboundErr × List ProtocolEffect :=
  match env.outboundRes with
  | .fail e => (.fail e, [.outboundExchange params.channelAddress])
  | .ok v =>
    (.ok v,
      [.outboundExchange params.channelAddress,
       .emitChannelUpdateEvent params.channelAddress])

/-- Shallow embedding of `Vector.executeUpdate`: determine the
participants (from the params for `setup`, from the store otherwise,
failing with `ChannelNotFound` when absent), acquire the channel lock,
run `lockedOperation`, and release the lock afterwards regardless of the
outcome. -/
def executeUpdate (params : UpdateParamsCore)
    (env : ExecuteUpdateEnv) : VResult Unit OutboundErr × List ProtocolEffect :=
  match params.kind with
  | .setup =>
    let (res, lockedEffects) := lockedOperation params env
    (res,
      .acquireLock params.channelAddress ::
        lockedEffects ++ [.releaseLock params.channelAddress])
  | _ =>
    match env.channelRes with
    | none =>
      (.fail ⟨.ChannelNotFound, none⟩, [.getChannelState params.channelAddress])
    | some _ =>
      let (res, lockedEffects) := lockedOperation params env
      (res,
        .getChannelState params.channelAddress ::
          .acquireLock params.channelAddress ::
            lockedEffects ++ [.releaseLock params.channelAddress])

/-! ## Engine deposit retry loop: `VectorEngine.deposit` -/

/-- `true` exactly when the engine classifies a failed deposit as a
signature-recovery failure: the outbound error message is
`BadSignatures`, or the `counterpartyError` in its context is the inbound
`BadSignatures` reason. -/
def recoveryFailed (e : OutboundErr) : Bool :=
  e.message == .BadSignatures || e.counterpartyError == some .BadSignatures

/-- The retry loop of `VectorEngine.deposit`, written with explicit fuel:
`fuel` remaining loop iterations, `state = (latest result, number of
protocol deposit calls made so far)`, and `attempt n` the result the
protocol returns for the `n`-th call (0-based).  Each iteration retries
exactly when the latest result is an error classified by
`recoveryFailed`; otherwise the loop stops. -/
def depositRetryLoop (attempt : Nat → VResult Unit OutboundErr) :
    Nat → VResult Unit OutboundErr × Nat → VResult Unit OutboundErr × Nat
  | 0, state => state
  | fuel + 1, (res, calls) =>
    match res with
    | .ok v => (.ok v, calls)
    | .fail e =>
      if recoveryFailed e then
        depositRetryLoop attempt fuel (attempt calls, calls + 1)
      else
        (.fail e, calls)

/-- Shallow embedding of `VectorEngine.deposit` after parameter
validation: make the first protocol deposit call, then run the retry
loop over `Array(3)`. Returns the final result and the total number of
protocol deposit calls made. -/
def engineDeposit (attempt : Nat → VResult Unit OutboundErr) :
    VResult Unit OutboundErr × Nat :=
  depositRetryLoop attempt 3 (attempt 0, 1)

/-! ## Engine restore: `VectorEngine.restoreState` -/

/-- The fields of a restored channel state that `restoreState` inspects. -/
structure RestoredChannel where
  channelAddress : String
  alice : String
  bob : String
  aliceIdentifier : String
  bobIdentifier : String
  nonce : Int
  merkleRoot : String
  latestUpdateKind : UpdateKind
deriving Repr, DecidableEq

/-- Observable effects of the engine layer during a restore, in
execution order. -/
inductive EngineEffect where
  | sendRestoreStateRequest (counterpartyIdentifier : String)
  | sendRestoreAck (channelAddress : String)
  | sendRestoreError (message : String)
  | saveChannelStateAndTransfers (channelAddress : String)
  | emitRestoreStateEvent (channelAddress : String)
deriving Repr, DecidableEq

/-- Environment for one run of `restoreState`: the reply to the restore
request (a channel plus active transfers, either possibly missing), the
chain service's Create2 channel-address derivation, the outcome of
signature validation on the latest update, the merkle root computed over
the received active transfers, the local channel nonce (if a local
channel exists), and the outcomes of the store write and of the final
acknowledgment message. -/
structure RestoreStateEnv where
  restoreDataRes : VResult (Option RestoredChannel × Option (List String)) String
  calculatedAddress : VResult String String
  sigValidation : VResult Unit String
  computedMerkleRoot : List String → String
  existingChannelRes : VResult (Option Int) String
  saveRes : VResult Unit String
  ackRes : VResult Unit String

/-- Outcome of `restoreState`: either a returned `Result`, or an
unhandled exception (the error helper dereferences
`channel.channelAddress`, which throws when the restore payload carries
no channel at all). -/
inductive RestoreOutcome where
  | result (r : VResult RestoredChannel String)
  | thrown
deriving Repr, DecidableEq

/-- Shallow embedding of `VectorEngine.restoreState` after parameter
validation: request the restore payload from the counterparty, verify
(channel data present, Create2 channel address, both signatures on the
latest update, merkle root over the active transfers, non-syncable
nonce), then save the channel and transfers atomically, acknowledge, and
emit `RESTORE_STATE_EVENT`.  Every failed verification is answered with
an error message to the counterparty (so the holder releases the lock)
and a failed result. -/
def restoreState (counterpartyIdentifier : String) (env : RestoreStateEnv) :
    RestoreOutcome × List EngineEffect :=
  let req := EngineEffect.sendRestoreStateRequest counterpartyIdentifier
  match env.restoreDataRes with
  | .fail e => (.result (.fail e), [req])
  | .ok (chan?, transfers?) =>
    match chan? with
    | none => (.thrown, [req])
    | some channel =>
      let respondErr := fun (message : String) (effects : List EngineEffect) =>
        (RestoreOutcome.result (.fail message), effects ++ [.sendRestoreError message])
      match transfers? with
      | none => respondErr "Restore failed: no data for restore" [req]
      | some activeTransfers =>
        match env.calculatedAddress with
        | .fail _ => respondErr "Restore failed: could not verify channelAddress" [req]
        | .ok calculated =>
          if calculated ≠ channel.channelAddress then
            respondErr "Restore failed: invalid channelAddress" [req]
          else if env.sigValidation.isError then
            respondErr "Restore failed: invalid signatures" [req]
          else if env.computedMerkleRoot activeTransfers ≠ channel.merkleRoot then
            respondErr "Restore failed: invalid merkleRoot" [req]
          else
            match env.existingChannelRes with
            | .fail _ => respondErr "Restore failed: store.getChannelState faileds" [req]
            | .ok localNonce? =>
              let localNonce := localNonce?.getD 0
              let diff := channel.nonce - localNonce
              if diff ≤ 1 ∧ channel.latestUpdateKind ≠ .setup then
                respondErr "Restore failed: syncable state" [req]
              else
                let afterSave := [req, .saveChannelStateAndTransfers channel.channelAddress]
                match env.saveRes with
                | .fail _ => respondErr "Restore failed: could not save state" afterSave
                | .ok _ =>
                  let afterAck := afterSave ++ [.sendRestoreAck channel.channelAddress]
                  match env.ackRes with
                  | .ok _ =>
                    (.result (.ok channel),
                      afterAck ++ [.emitRestoreStateEvent channel.channelAddress])
                  | .fail _ =>
                    (.result (.fail "Restore failed: unable to ack"),
                      afterAck ++
                        [.sendRestoreError "Restore failed: unable to ack",
                         .emitRestoreStateEvent channel.channelAddress])

/-! ## Router forwarding engine -/

/-- The two kinds of queued router updates (`RouterUpdateType`). -/
inductive RouterUpdateKind where
  | TRANSFER_CREATION
  | TRANSFER_RESOLUTION
deriving Repr, DecidableEq

/-- Status of a queued router update row (`RouterUpdateStatus`). -/
inductive RouterUpdateStatus where
  | PENDING
  | PROCESSING
  | COMPLETE
  | FAILED
  | UNVERIFIED
deriving Repr, DecidableEq

/-- One entry of the routing `path` carried in a transfer's meta. -/
structure RouterMetaPath where
  recipient : Option String
  recipientAssetId : Option String
  recipientChainId : Option Nat
deriving Repr, DecidableEq

/-- The router-relevant fields of a transfer `meta` object.  `none`
models an absent key. -/
structure TransferMeta where
  routingId : Option String
  path : Option (List RouterMetaPath)
  requireOnline : Option Bool
  senderIdentifier : Option String
deriving Repr, DecidableEq

/-- JavaScript truthiness of an optional string: present and non-empty. -/
def strTruthy : Option String → Bool
  | some s => !s.isEmpty
  | none => false

/-- A two-party balance (`balance.amount`, `balance.to`; the latter
field is renamed `toAddr` here because `to` is reserved in Lean). -/
structure TransferBalance where
  amount : List String
  toAddr : List String
deriving Repr, DecidableEq

/-- The fields of the sender-side `FullTransferState` that
`forwardTransferCreation` reads.  `transferState` is the created
transfer state as an association list of named fields, one of which is
`"balance"`. -/
structure SenderTransfer where
  transferId : String
  channelAddress : String
  balance : TransferBalance
  assetId : String
  initiator : String
  responder : String
  transferTimeout : Int
  transferDefinition : String
  transferState : List (String × String)
  meta : TransferMeta
deriving Repr, DecidableEq

/-- The `networkContext` fields of a channel the router reads. -/
structure ChannelNetworkCtx where
  chainId : Nat
deriving Repr, DecidableEq

/-- The fields of a `FullChannelState` that the router reads. -/
structure RouterChannel where
  channelAddress : String
  alice : String
  bob : String
  aliceIdentifier : String
  bobIdentifier : String
  networkContext : ChannelNetworkCtx
deriving Repr, DecidableEq

/-- The fixed timeout safety margin subtracted when re-creating a
forwarded transfer on the recipient channel (`TRANSFER_DECREMENT` from
`@connext/vector-types`; its concrete value is irrelevant to the claims
proved here). -/
def TRANSFER_DECREMENT : Int := 72

/-- The parameters the router builds for the outgoing conditional
transfer (`conditionalTransfer()` params). -/
structure TransferParamsOut where
  channelAddress : String
  amount : String
  assetId : String
  timeout : Int
  conditionType : String
  publicIdentifier : String
  details : List (String × String)
  meta : TransferMeta
deriving Repr, DecidableEq

/-- The parameters of a `resolveTransfer` submission
(`NodeParams.ResolveTransfer`). -/
structure ResolveParamsOut where
  channelAddress : String
  transferId : String
  transferResolver : String
  publicIdentifier : String
deriving Repr, DecidableEq

/-- Payload of a queued router update row: the exact parameters of the
queued creation or resolution. -/
inductive QueuePayload where
  | creation (p : TransferParamsOut)
  | resolution (p : ResolveParamsOut)
deriving Repr, DecidableEq

/-- Node-service error reasons distinguished by the check-in handler. -/
inductive NodeErrReason where
  | Timeout
  | other (message : String)
deriving Repr, DecidableEq

/-- Observable effects of the router layer, in execution order. -/
inductive RouterEffect where
  | getQueuedUpdates (channelAddress : String) (status : RouterUpdateStatus)
  | setUpdateStatus (id : Nat) (status : RouterUpdateStatus) (error : Option NodeErrReason)
  | queueUpdate (channelAddress : String) (kind : RouterUpdateKind)
      (status : RouterUpdateStatus) (payload : QueuePayload)
  | submitResolve (params : ResolveParamsOut)
  | submitCreate (params : TransferParamsOut)
  | submitCancel (channelAddress : String) (transferId : String)
  | attemptQueuedCreate (payload : QueuePayload)
  | attemptQueuedResolve (payload : QueuePayload)
  | generatedParams (params : TransferParamsOut)
deriving Repr, DecidableEq

/-- `ForwardTransferError` reasons used by the embedded fragment. -/
inductive ForwardReason where
  | InvalidForwardingInfo
  | SenderChannelNotFound
  | UnableToCalculateSwap
  | RecipientChannelNotFound
  | ReceiverOffline
  | CheckInError
  | other (message : String)
deriving Repr, DecidableEq

/-- How the sender-side cancellation is reported in a forwarding error
context (`senderTransferCancellation`). -/
inductive CancellationTag where
  | executed
  | enqueued
deriving Repr, DecidableEq

/-- The context fields of a `ForwardTransferError` that the claims
inspect; absent keys are `none`. -/
structure ForwardCtx where
  routingId : Option String := none
  senderTransfer : Option String := none
  senderChannel : Option String := none
  recipientChannel : Option String := none
  senderTransferCancellation : Option CancellationTag := none
deriving Repr, DecidableEq

/-- A `ForwardTransferError`: reason (`message`) plus context. -/
structure ForwardErr where
  message : ForwardReason
  context : ForwardCtx
deriving Repr, DecidableEq

/-- An error returned by the transfer-with-collateralization layer: its
reason and whether the caller should cancel the sender-side transfer
(`context.shouldCancelSender`). -/
structure AttemptErr where
  message : ForwardReason
  shouldCancelSender : Bool
deriving Repr, DecidableEq

/-- Environment of `cancelCreatedTransfer`: the outcome of submitting
the zero-out resolve on the sender channel, and the outcome of
enqueueing the cancellation when that submission fails. -/
structure CancelEnv where
  resolveRes : VResult String String
  enqueueRes : VResult Unit String
deriving Repr, DecidableEq

/-- Modelled from the spec: `cancelCreatedTransfer` (router
`services/transfer.ts`, whose source is not part of this snapshot).
Spec §4.2 Cancellation: cancelling means submitting a `resolve` on the
sender-side transfer with the transfer definition's canonical zero-out
resolver; the cancellation itself may fail transiently, and is then
enqueued for retry.  A successful immediate cancellation yields a
non-empty result value, an enqueued one an empty value, and a failure to
both execute and enqueue yields an error. -/
def cancelCreatedTransfer (senderTransfer : SenderTransfer)
    (routerPublicIdentifier : String) (env : CancelEnv) :
    VResult (Option String) ForwardErr × List RouterEffect :=
  let submission := RouterEffect.submitCancel senderTransfer.channelAddress senderTransfer.transferId
  match env.resolveRes with
  | .ok v => (.ok (some v), [submission])
  | .fail _ =>
    match env.enqueueRes with
    | .ok _ =>
      (.ok none,
        [submission,
         .queueUpdate senderTransfer.channelAddress .TRANSFER_RESOLUTION .PENDING
           (.resolution
             ⟨senderTransfer.channelAddress, senderTransfer.transferId, "0x",
              routerPublicIdentifier⟩)])
    | .fail msg => (.fail ⟨.other msg, {}⟩, [submission])

/-- Environment of `attemptTransferWithCollateralization`: the outcome
of collateralizing the recipient channel, the recipient's liveness, and
the outcome of submitting the `create` update. -/
structure AttemptEnv where
  collateralRes : VResult Unit AttemptErr
  recipientOnline : Bool
  createRes : VResult String AttemptErr
deriving Repr, DecidableEq

/-- Modelled from the spec: `attemptTransferWithCollateralization`
(router `services/transfer.ts`, whose source is not part of this
snapshot).  Spec §4.2 step 6: collateralize the recipient channel if
needed, probe recipient liveness; when the recipient is offline, fail
flagged `shouldCancelSender` if `requireOnline` is set, else enqueue a
`TRANSFER_CREATION` row with status PENDING and return success with an
empty value (queued, not executed); when the recipient is online, submit
the `create` update. -/
def attemptTransferWithCollateralization (params : TransferParamsOut)
    (recipientChannel : RouterChannel) (requireOnline : Bool) (env : AttemptEnv) :
    VResult (Option String) AttemptErr × List RouterEffect :=
  match env.collateralRes with
  | .fail e => (.fail e, [])
  | .ok _ =>
    if !env.recipientOnline then
      if requireOnline then
        (.fail ⟨.ReceiverOffline, true⟩, [])
      else
        (.ok none,
          [.queueUpdate recipientChannel.channelAddress .TRANSFER_CREATION .PENDING
            (.creation params)])
    else
      match env.createRes with
      | .ok v => (.ok (some v), [.submitCreate params])
      | .fail e => (.fail e, [.submitCreate params])

/-- Environment for one run of `forwardTransferCreation`: results of the
sender-channel lookup, of `getSwappedAmount` (consulted only when a swap
is required), of the recipient-channel lookup, and the environments of
the collateralized-transfer attempt and of a possible sender-side
cancellation. -/
structure ForwardCreationEnv where
  senderChannelRes : VResult (Option RouterChannel) String
  swapRes : VResult String String
  recipientChannelRes : VResult (Option RouterChannel) String
  attemptEnv : AttemptEnv
  cancelEnv : CancelEnv
deriving Repr, DecidableEq

/-- The first entry of the routing path carried in a transfer meta
(`const [path] = meta.path ?? []`), defaulting to an empty entry. -/
def firstPath (meta : TransferMeta) : RouterMetaPath :=
  ((meta.path.getD []).head?).getD ⟨none, none, none⟩

/-- Whether forwarding requires an in-flight swap: the recipient asset
or chain (after defaulting from the sender) differs from the sender
asset or chain. -/
def forwardSwapNeeded (st : SenderTransfer) (senderChannel : RouterChannel) : Prop :=
  (firstPath st.meta).recipientAssetId.getD st.assetId ≠ st.assetId ∨
  (firstPath st.meta).recipientChainId.getD senderChannel.networkContext.chainId ≠
    senderChannel.networkContext.chainId

/-- The swap test is decidable (it compares strings and chain ids). -/
instance (st : SenderTransfer) (senderChannel : RouterChannel) :
    Decidable (forwardSwapNeeded st senderChannel) := by
  unfold forwardSwapNeeded
  infer_instance

/-- The local helper `cancelSenderTransferAndReturnError` of
`forwardTransferCreation`: run `cancelCreatedTransfer`; if that itself
fails (neither executed nor enqueued), return its error; otherwise fail
with the given reason, the context reporting `senderTransferCancellation`
as `executed` when the cancellation ran immediately and `enqueued` when
it was queued for retry. -/
def cancelSenderTransferAndReturnError (senderTransfer : SenderTransfer)
    (routerPublicIdentifier routingId : String) (reason : ForwardReason)
    (cancelEnv : CancelEnv) (priorEffects : List RouterEffect) :
    VResult String ForwardErr × List RouterEffect :=
  let (cancelRes, cancelEffects) :=
    cancelCreatedTransfer senderTransfer routerPublicIdentifier cancelEnv
  match cancelRes with
  | .fail e => (.fail e, priorEffects ++ cancelEffects)
  | .ok v =>
    (.fail
      { message := reason,
        context :=
          { senderChannel := some senderTransfer.channelAddress,
            senderTransfer := some senderTransfer.transferId,
            routingId := some routingId,
            senderTransferCancellation :=
              some (if v.isSome then .executed else .enqueued) } },
      priorEffects ++ cancelEffects)

/-- The outgoing-transfer parameters `forwardTransferCreation` builds:
recipient channel address, the computed recipient amount and asset, the
sender timeout minus `TRANSFER_DECREMENT`, the event condition type, the
created transfer state minus its `balance` field as `details`, and the
sender meta spread over a `senderIdentifier` default computed from the
initiator (so an existing `senderIdentifier` key wins). -/
def forwardParams (st : SenderTransfer) (conditionType routerPublicIdentifier : String)
    (senderChannel recipientChannel : RouterChannel)
    (recipientAmount recipientAssetId : String) : TransferParamsOut :=
  { channelAddress := recipientChannel.channelAddress,
    amount := recipientAmount,
    assetId := recipientAssetId,
    timeout := st.transferTimeout - TRANSFER_DECREMENT,
    conditionType := conditionType,
    publicIdentifier := routerPublicIdentifier,
    details := st.transferState.filter (fun kv => kv.1 ≠ "balance"),
    meta :=
      { st.meta with
        senderIdentifier :=
          some (st.meta.senderIdentifier.getD
            (if st.initiator = senderChannel.bob then senderChannel.bobIdentifier
             else senderChannel.aliceIdentifier)) } }

/-- The attempt-and-outcome stage of `forwardTransferCreation`: log the
generated params, attempt the transfer with collateralization, and
handle the outcome — a non-empty success is routed, an empty success
(queued) surfaces as a `ReceiverOffline` descriptor, an error flagged
`shouldCancelSender` cancels the sender-side transfer, any other error
is surfaced without cancellation. -/
def forwardAttemptStage (senderTransfer : SenderTransfer)
    (routerPublicIdentifier routingId : String) (params : TransferParamsOut)
    (recipientChannel : RouterChannel) (requireOnline : Bool)
    (attemptEnv : AttemptEnv) (cancelEnv : CancelEnv) :
    VResult String ForwardErr × List RouterEffect :=
  let (attemptRes, attemptEffects) :=
    attemptTransferWithCollateralization params recipientChannel requireOnline attemptEnv
  let seen := RouterEffect.generatedParams params :: attemptEffects
  match attemptRes with
  | .ok (some value) => (.ok value, seen)
  | .ok none =>
    (.fail
      { message := .ReceiverOffline,
        context :=
          { routingId := some routingId,
            senderTransfer := some senderTransfer.transferId,
            recipientChannel := some recipientChannel.channelAddress } },
      seen)
  | .fail e =>
    if e.shouldCancelSender then
      cancelSenderTransferAndReturnError senderTransfer routerPublicIdentifier
        routingId e.message cancelEnv seen
    else (.fail { message := e.message, context := {} }, seen)

/-- Shallow embedding of the router's `forwardTransferCreation`: check
the routing metadata, load the sender channel, compute the recipient
asset/chain/amount (running the in-flight swap when they differ from the
sender's), load the recipient channel, build the outgoing transfer
parameters, and attempt the transfer with collateralization.  Failures
after the metadata check cancel the sender-side transfer where the spec
requires it, via `cancelCreatedTransfer`. -/
def forwardTransferCreation (senderTransfer : SenderTransfer)
    (conditionType : String) (routerPublicIdentifier : String)
    (env : ForwardCreationEnv) : VResult String ForwardErr × List RouterEffect :=
  let meta := senderTransfer.meta
  let path? := (meta.path.getD []).head?
  let recipient? := path?.bind (fun p => p.recipient)
  if !(strTruthy meta.routingId) || path?.isNone || !(strTruthy recipient?) then
    (.fail
      { message := .InvalidForwardingInfo,
        context :=
          { senderTransfer := some senderTransfer.transferId,
            senderChannel := some senderTransfer.channelAddress } },
      [])
  else
    let routingId := meta.routingId.getD ""
    match env.senderChannelRes with
    | .fail _ => (.fail { message := .SenderChannelNotFound, context := {} }, [])
    | .ok none => (.fail { message := .SenderChannelNotFound, context := {} }, [])
    | .ok (some senderChannel) =>
      let recipientAssetId :=
        (firstPath meta).recipientAssetId.getD senderTransfer.assetId
      let requireOnline := meta.requireOnline.getD false
      if forwardSwapNeeded senderTransfer senderChannel ∧ env.swapRes.isError then
        cancelSenderTransferAndReturnError senderTransfer routerPublicIdentifier
          routingId .UnableToCalculateSwap env.cancelEnv []
      else
        let recipientAmount :=
          if forwardSwapNeeded senderTransfer senderChannel then
            match env.swapRes with
            | .ok v => v
            | .fail _ => senderTransfer.balance.amount.headD ""
          else senderTransfer.balance.amount.headD ""
        match env.recipientChannelRes with
        | .fail _ =>
          cancelSenderTransferAndReturnError senderTransfer routerPublicIdentifier
            routingId .RecipientChannelNotFound env.cancelEnv []
        | .ok none =>
          cancelSenderTransferAndReturnError senderTransfer routerPublicIdentifier
            routingId .RecipientChannelNotFound env.cancelEnv []
        | .ok (some recipientChannel) =>
          forwardAttemptStage senderTransfer routerPublicIdentifier routingId
            (forwardParams senderTransfer conditionType routerPublicIdentifier
              senderChannel recipientChannel recipientAmount recipientAssetId)
            recipientChannel requireOnline env.attemptEnv env.cancelEnv

/-- A transfer record returned by `getTransfersByRoutingId`. -/
structure IncomingTransferRecord where
  transferId : String
  channelAddress : String
  responder : String
deriving Repr, DecidableEq

/-- The fields of a `ConditionalTransferResolvedPayload` that
`forwardTransferResolution` reads. -/
structure ResolutionData where
  channelAddress : String
  transferId : String
  transferResolver : String
  routingId : String
deriving Repr, DecidableEq

/-- `ForwardResolutionError` reasons. -/
inductive ResolutionReason where
  | IncomingChannelNotFound
  | ErrorResolvingTransfer
deriving Repr, DecidableEq

/-- A `ForwardResolutionError`: reason plus the routing id it reports. -/
structure ResolutionErr where
  message : ResolutionReason
  routingId : String
deriving Repr, DecidableEq

/-- Environment for one run of `forwardTransferResolution`: the
transfers sharing the routing id, and the outcome of the sender-side
resolve submission. -/
structure ForwardResolutionEnv where
  transfersRes : VResult (List IncomingTransferRecord) String
  resolveRes : VResult String String
deriving Repr, DecidableEq

/-- Shallow embedding of the router's `forwardTransferResolution`: look
up the transfers sharing the resolved transfer's `routingId`, select the
one where the router is the responder (the sender-side transfer), and
submit a `resolve` on it with the same resolver; on failure, enqueue a
`TRANSFER_RESOLUTION` row for retry and return a failure. -/
def forwardTransferResolution (data : ResolutionData)
    (routerPublicIdentifier routerSignerAddress : String)
    (env : ForwardResolutionEnv) : VResult String ResolutionErr × List RouterEffect :=
  match env.transfersRes with
  | .fail _ => (.fail ⟨.IncomingChannelNotFound, data.routingId⟩, [])
  | .ok transfers =>
    match transfers.find? (fun t => t.responder == routerSignerAddress) with
    | none => (.fail ⟨.IncomingChannelNotFound, data.routingId⟩, [])
    | some incomingTransfer =>
      let resolveParams : ResolveParamsOut :=
        ⟨incomingTransfer.channelAddress, incomingTransfer.transferId,
         data.transferResolver, routerPublicIdentifier⟩
      match env.resolveRes with
      | .ok v => (.ok v, [.submitResolve resolveParams])
      | .fail _ =>
        (.fail ⟨.ErrorResolvingTransfer, data.routingId⟩,
          [.submitResolve resolveParams,
           .queueUpdate incomingTransfer.channelAddress .TRANSFER_RESOLUTION .PENDING
             (.resolution resolveParams)])

/-! ## Check-in handler: `handleIsAlive` -/

/-- A queued router update row as loaded by the check-in handler. -/
structure QueuedRouterUpdate where
  id : Nat
  kind : RouterUpdateKind
  payload : QueuePayload
deriving Repr, DecidableEq

/-- Outcome of attempting one queued update: success, or a failure whose
underlying error (the `transferError` of a queued creation, the error
message of a queued resolution) may itself be absent. -/
inductive AttemptOutcome where
  | success
  | failure (underlying : Option NodeErrReason)
deriving Repr, DecidableEq

/-- Environment for one run of `handleIsAlive`: the channel lookup, the
PENDING rows the store returns (in insertion order) and the outcome of
attempting the `i`-th of them. -/
structure IsAliveEnv where
  channelRes : VResult (Option Unit) String
  updates : List QueuedRouterUpdate
  outcomes : Nat → AttemptOutcome

/-- The attempt effect for one queued update: a queued creation goes
through `transferWithCollateralization`, a queued resolution through
`resolveTransfer`; both receive the row's stored payload. -/
def queuedAttemptEffect (u : QueuedRouterUpdate) : RouterEffect :=
  match u.kind with
  | .TRANSFER_CREATION => RouterEffect.attemptQueuedCreate u.payload
  | .TRANSFER_RESOLUTION => RouterEffect.attemptQueuedResolve u.payload

/-- Effects and failure flag for processing a single queued update
during check-in: mark it PROCESSING, attempt it, and on failure set the
status back to PENDING exactly when the underlying error is a timeout,
and to FAILED otherwise. -/
def processQueuedUpdate (u : QueuedRouterUpdate) (o : AttemptOutcome) :
    List RouterEffect × Bool :=
  let attempt := queuedAttemptEffect u
  match o with
  | .success => ([.setUpdateStatus u.id .PROCESSING none, attempt], false)
  | .failure e =>
    ([.setUpdateStatus u.id .PROCESSING none, attempt,
      .setUpdateStatus u.id (if e == some .Timeout then .PENDING else .FAILED) e],
     true)

/-- Drain the queued updates serially in list order, numbering attempts
from `i`; returns the accumulated effects and the ids of the updates
whose attempt failed. -/
def drainQueuedUpdates (outcomes : Nat → AttemptOutcome) :
    List QueuedRouterUpdate → Nat → List RouterEffect × List Nat
  | [], _ => ([], [])
  | u :: rest, i =>
    let (effects, errored) := processQueuedUpdate u (outcomes i)
    let (restEffects, restErrored) := drainQueuedUpdates outcomes rest (i + 1)
    (effects ++ restEffects, (if errored then [u.id] else []) ++ restErrored)

/-- Shallow embedding of the router's `handleIsAlive`: with
`skipCheckIn` do nothing; otherwise load the channel's PENDING queued
updates and process them serially, marking each PROCESSING before its
attempt and applying the timeout-aware failure status policy.  Returns
`CheckInError` when the channel cannot be loaded or some attempt
failed. -/
def handleIsAlive (channelAddress : String) (skipCheckIn : Bool)
    (env : IsAliveEnv) : VResult Unit ForwardErr × List RouterEffect :=
  if skipCheckIn then (.ok (), [])
  else
    let header := RouterEffect.getQueuedUpdates channelAddress .PENDING
    match env.channelRes with
    | .fail _ => (.fail { message := .CheckInError, context := {} }, [header])
    | .ok none => (.fail { message := .CheckInError, context := {} }, [header])
    | .ok (some _) =>
      let (effects, erroredIds) := drainQueuedUpdates env.outcomes env.updates 0
      if erroredIds.isEmpty then (.ok (), header :: effects)
      else (.fail { message := .CheckInError, context := {} }, header :: effects)

/-! ## Observation helpers used by the specifications -/

/-- The verifications `restoreState` performs on a received restore
payload `(channel, activeTransfers)`, with the nonce check as the code
implements it: the Create2-derived address matches, both signatures on
the latest update validate, the merkle root over the received transfers
matches the channel's, the local channel is readable, and the restored
nonce exceeds the local nonce (0 when no local channel exists) by more
than one unless the restored channel's latest update is a `setup`. -/
def restoreChecksPass (channel : RestoredChannel) (transfers : List String)
    (env : RestoreStateEnv) : Prop :=
  env.calculatedAddress = .ok channel.channelAddress ∧
  env.sigValidation.isError = false ∧
  env.computedMerkleRoot transfers = channel.merkleRoot ∧
  ∃ stored, env.existingChannelRes = .ok stored ∧
    (1 < channel.nonce - stored.getD 0 ∨ channel.latestUpdateKind = .setup)

/-- Presence (and JavaScript-truthiness) of the routing metadata that
`forwardTransferCreation` requires: `routingId`, `path[0]` and
`path[0].recipient`. -/
def routingInfoPresent (meta : TransferMeta) : Prop :=
  strTruthy meta.routingId = true ∧
  ((meta.path.getD []).head?).isSome = true ∧
  strTruthy (((meta.path.getD []).head?).bind (fun p => p.recipient)) = true

/-- The status values (with the error argument) written for a given
queued-update row id, in trace order. -/
def statusEventsFor (id : Nat) : List RouterEffect →
    List (RouterUpdateStatus × Option NodeErrReason)
  | [] => []
  | .setUpdateStatus i s e :: rest =>
    if i = id then (s, e) :: statusEventsFor id rest else statusEventsFor id rest
  | _ :: rest => statusEventsFor id rest

/-- The payloads attempted by the check-in handler, in trace order. -/
def attemptedPayloads : List RouterEffect → List QueuePayload
  | [] => []
  | .attemptQueuedCreate p :: rest => p :: attemptedPayloads rest
  | .attemptQueuedResolve p :: rest => p :: attemptedPayloads rest
  | _ :: rest => attemptedPayloads rest

/-! ## Theorems -/

/-- Every successful `List.find?` splits the list at the first element
satisfying the predicate. -/
theorem find?_eq_some_split {α : Type} (p : α → Bool) (l : List α) (a : α)
    (h : l.find? p = some a) :
    ∃ pre post, l = pre ++ a :: post ∧ p a = true ∧ ∀ q ∈ pre, p q = false := by
  induction l with
  | nil => simp [List.find?] at h
  | cons x xs ih =>
    rw [List.find?] at h
    cases hx : p x with
    | true =>
      rw [hx] at h
      cases h
      exact ⟨[], xs, rfl, hx, by simp⟩
    | false =>
      rw [hx] at h
      obtain ⟨pre, post, hsplit, hpa, hpre⟩ := ih h
      refine ⟨x :: pre, post, by rw [hsplit]; rfl, hpa, ?_⟩
      intro q hq
      rcases List.mem_cons.mp hq with hqx | hqpre
      · exact hqx ▸ hx
      · exact hpre q hqpre

/-- C10: for every chainId and assetId, `getRebalanceProfile` returns
the first configured rebalance profile whose chainId and assetId both
match, and it fails with `UnableToGetRebalanceProfile` carrying exactly
the context `{chainId, assetId}` if and only if no configured profile
matches. -/
theorem getRebalanceProfile_first_match_and_failure_iff
    (config : RouterConfig) (chainId : Nat) (assetId : String) :
    (∀ p, getRebalanceProfile config chainId assetId = .ok p →
        p.assetId = assetId ∧ p.chainId = chainId ∧
        ∃ pre post, config.rebalanceProfiles = pre ++ p :: post ∧
          ∀ q ∈ pre, ¬(q.assetId = assetId ∧ q.chainId = chainId)) ∧
    (getRebalanceProfile config chainId assetId =
        .fail (.UnableToGetRebalanceProfile ⟨chainId, assetId⟩) ↔
      ∀ q ∈ config.rebalanceProfiles, ¬(q.assetId = assetId ∧ q.chainId = chainId)) := by
  constructor
  · intro p hp
    unfold getRebalanceProfile at hp
    cases hfind : config.rebalanceProfiles.find? (fun profile =>
        profile.assetId == assetId && profile.chainId == chainId) with
    | none => rw [hfind] at hp; exact absurd hp (by simp)
    | some r =>
      rw [hfind] at hp
      have hrp : r = p := by
        have := hp
        simp only [VResult.ok.injEq] at this
        exact this
      subst hrp
      obtain ⟨pre, post, hsplit, hpr, hpre⟩ := find?_eq_some_split _ _ _ hfind
      have hmatch : r.assetId = assetId ∧ r.chainId = chainId := by
        simpa [Bool.and_eq_true, beq_iff_eq] using hpr
      refine ⟨hmatch.1, hmatch.2, pre, post, hsplit, ?_⟩
      intro q hq hqmatch
      have := hpre q hq
      simp [Bool.and_eq_true, beq_iff_eq, hqmatch.1, hqmatch.2] at this
  · constructor
    · intro hfail q hq hqmatch
      unfold getRebalanceProfile at hfail
      cases hfind : config.rebalanceProfiles.find? (fun profile =>
          profile.assetId == assetId && profile.chainId == chainId) with
      | some r => rw [hfind] at hfail; exact absurd hfail (by simp)
      | none =>
        have := List.find?_eq_none.mp hfind q hq
        simp [Bool.and_eq_true, beq_iff_eq, hqmatch.1, hqmatch.2] at this
    · intro hnone
      unfold getRebalanceProfile
      have hfind : config.rebalanceProfiles.find? (fun profile =>
          profile.assetId == assetId && profile.chainId == chainId) = none := by
        apply List.find?_eq_none.mpr
        intro q hq hqtrue
        have : q.assetId = assetId ∧ q.chainId = chainId := by
          simpa [Bool.and_eq_true, beq_iff_eq] using hqtrue
        exact hnone q hq this
      rw [hfind]

/-- C10 witness: on a concrete configuration with two matching profiles
the lookup returns the first and the split is non-vacuous. -/
theorem getRebalanceProfile_first_match_witness :
    (RebalanceProfile.mk 5 "0xaaa" 1 10 2).assetId = "0xaaa" ∧
    (RebalanceProfile.mk 5 "0xaaa" 1 10 2).chainId = 5 ∧
    ∃ pre post,
      [RebalanceProfile.mk 5 "0xaaa" 1 10 2, RebalanceProfile.mk 5 "0xaaa" 3 30 4] =
        pre ++ (RebalanceProfile.mk 5 "0xaaa" 1 10 2) :: post ∧
      ∀ q ∈ pre, ¬(q.assetId = "0xaaa" ∧ q.chainId = 5) :=
  (getRebalanceProfile_first_match_and_failure_iff
    ⟨[⟨5, "0xaaa", 1, 10, 2⟩, ⟨5, "0xaaa", 3, 30, 4⟩]⟩ 5 "0xaaa").1
    ⟨5, "0xaaa", 1, 10, 2⟩ (by decide)

/-- C2: for every update initiated through `Vector.executeUpdate`
(setup, deposit, create or resolve) and every environment (in
particular, whether the outbound exchange succeeds or fails), whenever
the outbound protocol exchange occurs in the trace, the channel lock is
acquired before it and released after it; and an acquired lock is always
released. -/
theorem executeUpdate_lock_wraps_outbound (params : UpdateParamsCore)
    (env : ExecuteUpdateEnv) :
    (ProtocolEffect.outboundExchange params.channelAddress ∈ (executeUpdate params env).2 →
      ∃ pre mid post,
        (executeUpdate params env).2 =
          pre ++ ProtocolEffect.acquireLock params.channelAddress ::
            (mid ++ ProtocolEffect.releaseLock params.channelAddress :: post) ∧
        ProtocolEffect.outboundExchange params.channelAddress ∈ mid) ∧
    (ProtocolEffect.acquireLock params.channelAddress ∈ (executeUpdate params env).2 →
      ProtocolEffect.releaseLock params.channelAddress ∈ (executeUpdate params env).2) := by
  rcases params with ⟨ca, kind, cp⟩
  rcases env with ⟨chres, obres⟩
  cases kind <;> cases chres <;> cases obres <;>
    simp only [executeUpdate, lockedOperation] <;>
    first
      | ((refine ⟨fun h => absurd h ?_, fun h => absurd h ?_⟩ <;> simp) <;> done)
      | ((refine ⟨fun _ => ⟨[], [.outboundExchange ca, .emitChannelUpdateEvent ca], [],
          ?_, ?_⟩, fun _ => ?_⟩ <;> simp) <;> done)
      | ((refine ⟨fun _ => ⟨[], [.outboundExchange ca], [], ?_, ?_⟩,
          fun _ => ?_⟩ <;> simp) <;> done)
      | ((refine ⟨fun _ => ⟨[.getChannelState ca],
          [.outboundExchange ca, .emitChannelUpdateEvent ca], [], ?_, ?_⟩,
          fun _ => ?_⟩ <;> simp) <;> done)
      | ((refine ⟨fun _ => ⟨[.getChannelState ca], [.outboundExchange ca], [],
          ?_, ?_⟩, fun _ => ?_⟩ <;> simp) <;> done)

/-- C2 witness: a concrete `create` update whose outbound exchange
fails; the trace still acquires the lock before the exchange and
releases it after. -/
theorem executeUpdate_lock_wraps_outbound_witness :
    ∃ pre mid post,
      (executeUpdate ⟨"0xchan", .create, "vectorB"⟩
          ⟨some ⟨"vectorA", "vectorB"⟩, .fail ⟨.other "timeout", none⟩⟩).2 =
        pre ++ ProtocolEffect.acquireLock "0xchan" ::
          (mid ++ ProtocolEffect.releaseLock "0xchan" :: post) ∧
      ProtocolEffect.outboundExchange "0xchan" ∈ mid :=
  (executeUpdate_lock_wraps_outbound ⟨"0xchan", .create, "vectorB"⟩
      ⟨some ⟨"vectorA", "vectorB"⟩, .fail ⟨.other "timeout", none⟩⟩).1 (by decide)

/-- C3: the engine deposit makes between 1 and 4 protocol deposit calls
(an initial attempt plus at most three retries), returns the result of
the last call, retries after a failed call only when that failure is
classified as `BadSignatures` (outbound message or counterparty error),
and stops immediately on a success or on any other failure; when it
stops before exhausting the three retries, the last result was not a
retriable failure. -/
theorem engineDeposit_retries_only_bad_signatures
    (attempt : Nat → VResult Unit OutboundErr) :
    1 ≤ (engineDeposit attempt).2 ∧ (engineDeposit attempt).2 ≤ 4 ∧
    (engineDeposit attempt).1 = attempt ((engineDeposit attempt).2 - 1) ∧
    (∀ k, k + 1 < (engineDeposit attempt).2 →
      ∃ e, attempt k = .fail e ∧ recoveryFailed e = true) ∧
    ((engineDeposit attempt).2 < 4 →
      ¬∃ e, attempt ((engineDeposit attempt).2 - 1) = .fail e ∧
        recoveryFailed e = true) := by
  rcases h0 : attempt 0 with v0 | e0
  · refine ⟨?_, ?_, ?_, ?_, ?_⟩ <;>
      simp [engineDeposit, depositRetryLoop, h0] <;> omega
  · by_cases hr0 : recoveryFailed e0 = true
    · rcases h1 : attempt 1 with v1 | e1
      · refine ⟨?_, ?_, ?_, ?_, ?_⟩ <;>
          simp [engineDeposit, depositRetryLoop, h0, hr0, h1]
        intro k hk
        have hk0 : k = 0 := by omega
        subst hk0
        exact ⟨e0, h0, hr0⟩
      · by_cases hr1 : recoveryFailed e1 = true
        · rcases h2 : attempt 2 with v2 | e2
          · refine ⟨?_, ?_, ?_, ?_, ?_⟩ <;>
              simp [engineDeposit, depositRetryLoop, h0, hr0, h1, hr1, h2]
            intro k hk
            have hk01 : k = 0 ∨ k = 1 := by omega
            rcases hk01 with rfl | rfl
            · exact ⟨e0, h0, hr0⟩
            · exact ⟨e1, h1, hr1⟩
          · by_cases hr2 : recoveryFailed e2 = true
            · refine ⟨?_, ?_, ?_, ?_, ?_⟩ <;>
                simp [engineDeposit, depositRetryLoop, h0, hr0, h1, hr1, h2, hr2]
              intro k hk
              have hk012 : k = 0 ∨ k = 1 ∨ k = 2 := by omega
              rcases hk012 with rfl | rfl | rfl
              · exact ⟨e0, h0, hr0⟩
              · exact ⟨e1, h1, hr1⟩
              · exact ⟨e2, h2, hr2⟩
            · refine ⟨?_, ?_, ?_, ?_, ?_⟩ <;>
                simp [engineDeposit, depositRetryLoop, h0, hr0, h1, hr1, h2, hr2]
              intro k hk
              have hk01b : k = 0 ∨ k = 1 := by omega
              rcases hk01b with rfl | rfl
              · exact ⟨e0, h0, hr0⟩
              · exact ⟨e1, h1, hr1⟩
        · refine ⟨?_, ?_, ?_, ?_, ?_⟩ <;>
            simp [engineDeposit, depositRetryLoop, h0, hr0, h1, hr1]
          intro k hk
          have hk0b : k = 0 := by omega
          subst hk0b
          exact ⟨e0, h0, hr0⟩
    · refine ⟨?_, ?_, ?_, ?_, ?_⟩ <;>
        simp [engineDeposit, depositRetryLoop, h0, hr0] <;> omega

/-- Characterization of a `restoreState` run whose restore payload
carries a channel and active transfers: either some verification fails
and the run replies with an error having performed no store write, or
all verifications pass and the run saves, acknowledges and emits
according to the save/ack outcomes. -/
theorem restoreState_run_cases (cp : String) (env : RestoreStateEnv)
    (channel : RestoredChannel) (transfers : List String)
    (hdata : env.restoreDataRes = .ok (some channel, some transfers)) :
    (¬ restoreChecksPass channel transfers env ∧
      ∃ msg, restoreState cp env =
        (.result (.fail msg),
         [.sendRestoreStateRequest cp, .sendRestoreError msg])) ∨
    (restoreChecksPass channel transfers env ∧
      (((∃ msg, env.saveRes = .fail msg) ∧
        restoreState cp env =
          (.result (.fail "Restore failed: could not save state"),
           [.sendRestoreStateRequest cp,
            .saveChannelStateAndTransfers channel.channelAddress,
            .sendRestoreError "Restore failed: could not save state"])) ∨
       (env.saveRes = .ok () ∧ env.ackRes = .ok () ∧
        restoreState cp env =
          (.result (.ok channel),
           [.sendRestoreStateRequest cp,
            .saveChannelStateAndTransfers channel.channelAddress,
            .sendRestoreAck channel.channelAddress,
            .emitRestoreStateEvent channel.channelAddress])) ∨
       (env.saveRes = .ok () ∧ (∃ msg, env.ackRes = .fail msg) ∧
        restoreState cp env =
          (.result (.fail "Restore failed: unable to ack"),
           [.sendRestoreStateRequest cp,
            .saveChannelStateAndTransfers channel.channelAddress,
            .sendRestoreAck channel.channelAddress,
            .sendRestoreError "Restore failed: unable to ack",
            .emitRestoreStateEvent channel.channelAddress])))) := by
  rcases hca : env.calculatedAddress with calcAddr | cerr
  · by_cases heq : calcAddr = channel.channelAddress
    · subst heq
      by_cases hsig : env.sigValidation.isError = true
      · left
        refine ⟨?_, "Restore failed: invalid signatures", ?_⟩
        · intro h
          rw [h.2.1] at hsig
          exact Bool.noConfusion hsig
        · simp only [restoreState, hdata, hca]
          rw [if_neg (fun h => h rfl), if_pos hsig]
          rfl
      · by_cases hroot : env.computedMerkleRoot transfers = channel.merkleRoot
        · rcases hex : env.existingChannelRes with stored | serr
          · by_cases hsync : channel.nonce - stored.getD 0 ≤ 1 ∧
                channel.latestUpdateKind ≠ .setup
            · left
              refine ⟨?_, "Restore failed: syncable state", ?_⟩
              · rintro ⟨-, -, -, stored', hst, hgap⟩
                rw [hex] at hst
                cases hst
                rcases hgap with hlt | hsetup
                · omega
                · exact hsync.2 hsetup
              · simp only [restoreState, hdata, hca, hex]
                rw [if_neg (fun h => h rfl), if_neg hsig,
                  if_neg (fun h => h hroot), if_pos hsync]
                rfl
            · have hpass : restoreChecksPass channel transfers env := by
                refine ⟨hca, by simpa using hsig, hroot, stored, hex, ?_⟩
                rcases not_and_or.mp hsync with h | h
                · exact Or.inl (by omega)
                · exact Or.inr (not_not.mp h)
              right
              refine ⟨hpass, ?_⟩
              rcases hsave : env.saveRes with ⟨⟨⟩⟩ | smsg
              · rcases hack : env.ackRes with ⟨⟨⟩⟩ | amsg
                · refine Or.inr (Or.inl ⟨rfl, rfl, ?_⟩)
                  simp only [restoreState, hdata, hca, hex, hsave, hack]
                  rw [if_neg (fun h => h rfl), if_neg hsig,
                    if_neg (fun h => h hroot), if_neg hsync]
                  rfl
                · refine Or.inr (Or.inr ⟨rfl, ⟨amsg, rfl⟩, ?_⟩)
                  simp only [restoreState, hdata, hca, hex, hsave, hack]
                  rw [if_neg (fun h => h rfl), if_neg hsig,
                    if_neg (fun h => h hroot), if_neg hsync]
                  rfl
              · refine Or.inl ⟨⟨smsg, rfl⟩, ?_⟩
                simp only [restoreState, hdata, hca, hex, hsave]
                rw [if_neg (fun h => h rfl), if_neg hsig,
                  if_neg (fun h => h hroot), if_neg hsync]
                rfl
          · left
            refine ⟨?_, "Restore failed: store.getChannelState faileds", ?_⟩
            · rintro ⟨-, -, -, stored', hst, -⟩
              rw [hex] at hst
              cases hst
            · simp only [restoreState, hdata, hca, hex]
              rw [if_neg (fun h => h rfl), if_neg hsig, if_neg (fun h => h hroot)]
              rfl
        · left
          refine ⟨fun h => hroot h.2.2.1,
            "Restore failed: invalid merkleRoot", ?_⟩
          simp only [restoreState, hdata, hca]
          rw [if_neg (fun h => h rfl), if_neg hsig, if_pos hroot]
          rfl
    · left
      refine ⟨?_, "Restore failed: invalid channelAddress", ?_⟩
      · rintro ⟨h1, -⟩
        rw [hca] at h1
        exact heq (by injection h1)
      · simp only [restoreState, hdata, hca]
        rw [if_pos heq]
        rfl
  · left
    refine ⟨?_, "Restore failed: could not verify channelAddress", ?_⟩
    · rintro ⟨h1, -⟩
      rw [hca] at h1
      cases h1
    · simp only [restoreState, hdata, hca]
      rfl

/-- C1 counterexample: a concrete restore whose channel's latest update
is a `setup` passes all checks and is saved and emitted although the
restored nonce (1) does not exceed the local nonce (0, no local
channel) by more than one — so verification (iv) of the claim is not
enforced as stated. -/
theorem restoreState_nonce_check_counterexample :
    (restoreState "vectorB"
        { restoreDataRes :=
            .ok (some ⟨"0xchan", "0xa", "0xb", "vectorA", "vectorB", 1,
                  "0xroot", .setup⟩, some []),
          calculatedAddress := .ok "0xchan",
          sigValidation := .ok (),
          computedMerkleRoot := fun _ => "0xroot",
          existingChannelRes := .ok none,
          saveRes := .ok (),
          ackRes := .ok () }).1 =
      .result (.ok ⟨"0xchan", "0xa", "0xb", "vectorA", "vectorB", 1,
        "0xroot", .setup⟩) ∧
    EngineEffect.saveChannelStateAndTransfers "0xchan" ∈
      (restoreState "vectorB"
        { restoreDataRes :=
            .ok (some ⟨"0xchan", "0xa", "0xb", "vectorA", "vectorB", 1,
                  "0xroot", .setup⟩, some []),
          calculatedAddress := .ok "0xchan",
          sigValidation := .ok (),
          computedMerkleRoot := fun _ => "0xroot",
          existingChannelRes := .ok none,
          saveRes := .ok (),
          ackRes := .ok () }).2 ∧
    ¬(1 < (1 : Int) - 0) := by
  decide

/-- C1 (amended): for a restore payload carrying a channel and active
transfers, the state is overwritten via `saveChannelStateAndTransfers`
exactly when every verification passes — (i) the Create2-derived
address matches, (ii) both signatures validate, (iii) the merkle root
over the received transfers matches, (iv) the restored nonce exceeds
the local nonce by more than one unless the latest update is a setup —
any failed verification is answered with an error to the counterparty
and a failed result with no save and no event, a successful result
implies every verification passed, and `RESTORE_STATE_EVENT` is emitted
exactly when the verifications passed and the save succeeded. -/
theorem restoreState_verifications_gate_persistence
    (cp : String) (env : RestoreStateEnv) (channel : RestoredChannel)
    (transfers : List String)
    (hdata : env.restoreDataRes = .ok (some channel, some transfers)) :
    ((EngineEffect.saveChannelStateAndTransfers channel.channelAddress ∈
        (restoreState cp env).2) ↔ restoreChecksPass channel transfers env) ∧
    (¬ restoreChecksPass channel transfers env →
      ∃ msg, (restoreState cp env).1 = .result (.fail msg) ∧
        EngineEffect.sendRestoreError msg ∈ (restoreState cp env).2 ∧
        (∀ a, EngineEffect.saveChannelStateAndTransfers a ∉ (restoreState cp env).2) ∧
        (∀ a, EngineEffect.emitRestoreStateEvent a ∉ (restoreState cp env).2)) ∧
    (∀ ch, (restoreState cp env).1 = .result (.ok ch) →
      ch = channel ∧ restoreChecksPass channel transfers env) ∧
    ((EngineEffect.emitRestoreStateEvent channel.channelAddress ∈
        (restoreState cp env).2) ↔
      restoreChecksPass channel transfers env ∧ env.saveRes.isError = false) := by
  rcases restoreState_run_cases cp env channel transfers hdata with
    ⟨hfail, msg, hrun⟩ | ⟨hpass, hcase⟩
  · simp only [hrun]
    refine ⟨iff_of_false (by simp) hfail, ?_, ?_, ?_⟩
    · exact fun _ => ⟨msg, rfl, by simp, by simp, by simp⟩
    · intro ch h
      exact absurd h (by simp)
    · exact iff_of_false (by simp) (fun hc => hfail hc.1)
  · rcases hcase with ⟨⟨smsg, hsave⟩, hrun⟩ | ⟨hsave, hack, hrun⟩ |
      ⟨hsave, ⟨amsg, hack⟩, hrun⟩
    · simp only [hrun]
      refine ⟨iff_of_true (by simp) hpass, fun h => absurd hpass h, ?_, ?_⟩
      · intro ch h
        exact absurd h (by simp)
      · refine iff_of_false (by simp) (fun hc => ?_)
        rw [hsave] at hc
        simp [VResult.isError] at hc
    · simp only [hrun]
      refine ⟨iff_of_true (by simp) hpass, fun h => absurd hpass h, ?_, ?_⟩
      · intro ch h
        simp only [RestoreOutcome.result.injEq, VResult.ok.injEq] at h
        exact ⟨h.symm, hpass⟩
      · exact iff_of_true (by simp) ⟨hpass, by simp [hsave, VResult.isError]⟩
    · simp only [hrun]
      refine ⟨iff_of_true (by simp) hpass, fun h => absurd hpass h, ?_, ?_⟩
      · intro ch h
        exact absurd h (by simp)
      · exact iff_of_true (by simp) ⟨hpass, by simp [hsave, VResult.isError]⟩

/-- C1 witness: on a concrete passing restore the save-iff direction of
the amended theorem yields the store write. -/
theorem restoreState_verifications_witness :
    EngineEffect.saveChannelStateAndTransfers "0xchan" ∈
      (restoreState "vectorB"
        { restoreDataRes :=
            .ok (some ⟨"0xchan", "0xa", "0xb", "vectorA", "vectorB", 7,
                  "0xroot", .create⟩, some ["0xt1"]),
          calculatedAddress := .ok "0xchan",
          sigValidation := .ok (),
          computedMerkleRoot := fun _ => "0xroot",
          existingChannelRes := .ok (some 2),
          saveRes := .ok (),
          ackRes := .ok () }).2 :=
  ((restoreState_verifications_gate_persistence "vectorB"
      { restoreDataRes :=
          .ok (some ⟨"0xchan", "0xa", "0xb", "vectorA", "vectorB", 7,
                "0xroot", .create⟩, some ["0xt1"]),
        calculatedAddress := .ok "0xchan",
        sigValidation := .ok (),
        computedMerkleRoot := fun _ => "0xroot",
        existingChannelRes := .ok (some 2),
        saveRes := .ok (),
        ackRes := .ok () }
      ⟨"0xchan", "0xa", "0xb", "vectorA", "vectorB", 7, "0xroot", .create⟩
      ["0xt1"] rfl).1).mpr
    ⟨rfl, rfl, rfl, some 2, rfl, Or.inl (by decide)⟩

/-- Whatever the attempt outcome, the first effect of the attempt stage
is the `generatedParams` record of the built parameters. -/
theorem forwardAttemptStage_head (st : SenderTransfer) (rp rid : String)
    (params : TransferParamsOut) (rc : RouterChannel) (req : Bool)
    (ae : AttemptEnv) (ce : CancelEnv) :
    (forwardAttemptStage st rp rid params rc req ae ce).2.head? =
      some (.generatedParams params) := by
  unfold forwardAttemptStage
  rcases h : attemptTransferWithCollateralization params rc req ae with ⟨ares, aeffs⟩
  rcases ares with v | e
  · rcases v with _ | val <;> rfl
  · by_cases hf : e.shouldCancelSender = true
    · rcases hc : cancelCreatedTransfer st rp ce with ⟨cres, ceffs⟩
      rcases cres with cv | cerr <;>
        simp [cancelSenderTransferAndReturnError, hf, hc]
    · simp [hf]

/-- On the happy path (routing info present, sender and recipient
channels found, swap available when needed), `forwardTransferCreation`
builds the outgoing params and runs the attempt stage on them. -/
theorem forwardTransferCreation_happy_nav
    (st : SenderTransfer) (ct rp : String) (env : ForwardCreationEnv)
    (sc rc : RouterChannel)
    (hroute : routingInfoPresent st.meta)
    (hsc : env.senderChannelRes = .ok (some sc))
    (hrc : env.recipientChannelRes = .ok (some rc))
    (hswapok : forwardSwapNeeded st sc → env.swapRes.isError = false) :
    forwardTransferCreation st ct rp env =
      forwardAttemptStage st rp (st.meta.routingId.getD "")
        (forwardParams st ct rp sc rc
          (if forwardSwapNeeded st sc then
            match env.swapRes with
            | .ok v => v
            | .fail _ => st.balance.amount.headD ""
           else st.balance.amount.headD "")
          ((firstPath st.meta).recipientAssetId.getD st.assetId))
        rc (st.meta.requireOnline.getD false) env.attemptEnv env.cancelEnv := by
  obtain ⟨h1, h2, h3⟩ := hroute
  have h2' : ((st.meta.path.getD []).head?).isNone = false := by
    cases hh : (st.meta.path.getD []).head? <;> simp_all
  have hcond2 : ¬(forwardSwapNeeded st sc ∧ env.swapRes.isError = true) := by
    rintro ⟨hs, he⟩
    rw [hswapok hs] at he
    exact Bool.noConfusion he
  simp [forwardTransferCreation, h1, h2', h3, hsc, hrc, hcond2]

/-- When the recipient channel cannot be resolved (lookup error or no
channel), `forwardTransferCreation` runs the sender-side cancellation
helper with reason `RecipientChannelNotFound`. -/
theorem forwardTransferCreation_recipient_missing_nav
    (st : SenderTransfer) (ct rp : String) (env : ForwardCreationEnv)
    (sc : RouterChannel)
    (hroute : routingInfoPresent st.meta)
    (hsc : env.senderChannelRes = .ok (some sc))
    (hswapok : forwardSwapNeeded st sc → env.swapRes.isError = false)
    (hmiss : env.recipientChannelRes = .ok none ∨
      ∃ m, env.recipientChannelRes = .fail m) :
    forwardTransferCreation st ct rp env =
      cancelSenderTransferAndReturnError st rp (st.meta.routingId.getD "")
        .RecipientChannelNotFound env.cancelEnv [] := by
  obtain ⟨h1, h2, h3⟩ := hroute
  have h2' : ((st.meta.path.getD []).head?).isNone = false := by
    cases hh : (st.meta.path.getD []).head? <;> simp_all
  have hcond2 : ¬(forwardSwapNeeded st sc ∧ env.swapRes.isError = true) := by
    rintro ⟨hs, he⟩
    rw [hswapok hs] at he
    exact Bool.noConfusion he
  rcases hmiss with hnone | ⟨m, hfail⟩
  · simp [forwardTransferCreation, h1, h2', h3, hsc, hnone, hcond2]
  · simp [forwardTransferCreation, h1, h2', h3, hsc, hfail, hcond2]

/-- C4 counterexample: when the sender meta already contains a
`senderIdentifier` ("vector999"), the outgoing params keep it — the meta
spread overrides the computed default — although the initiator is bob,
whose channel identifier is "vectorB"; so the outgoing meta does not
carry `senderIdentifier` set to the initiator's identifier as the claim
states. -/
theorem forwardTransferCreation_senderIdentifier_counterexample :
    (forwardTransferCreation
      { transferId := "0xst", channelAddress := "0xsc",
        balance := ⟨["100", "0"], ["0xr", "0xs"]⟩,
        assetId := "0xasset", initiator := "0xb", responder := "0xr",
        transferTimeout := 1000, transferDefinition := "0xdef",
        transferState := [("balance", "bal"), ("lockHash", "0xhash")],
        meta := { routingId := some "rid",
                  path := some [⟨some "vectorR", none, none⟩],
                  requireOnline := none,
                  senderIdentifier := some "vector999" } }
      "HashlockTransfer" "vectorRouter"
      { senderChannelRes := .ok (some ⟨"0xsc", "0xa", "0xb", "vectorA", "vectorB", ⟨1⟩⟩),
        swapRes := .ok "100",
        recipientChannelRes :=
          .ok (some ⟨"0xrc", "0xa2", "0xb2", "vectorR2", "vectorR", ⟨1⟩⟩),
        attemptEnv := { collateralRes := .ok (), recipientOnline := true,
                        createRes := .ok "created" },
        cancelEnv := { resolveRes := .ok "cancelled", enqueueRes := .ok () } }).2.head? =
      some (.generatedParams
        { channelAddress := "0xrc", amount := "100", assetId := "0xasset",
          timeout := 1000 - TRANSFER_DECREMENT,
          conditionType := "HashlockTransfer",
          publicIdentifier := "vectorRouter",
          details := [("lockHash", "0xhash")],
          meta := { routingId := some "rid",
                    path := some [⟨some "vectorR", none, none⟩],
                    requireOnline := none,
                    senderIdentifier := some "vector999" } }) ∧
    "vector999" ≠ "vectorB" := by
  decide

/-- C4 (amended): on the happy path the outgoing-transfer parameters
copy the created transfer state minus its balance as the
condition-specific `details`, set the timeout to the sender transfer
timeout minus `TRANSFER_DECREMENT`, use the computed recipient amount
and asset id, and carry the sender meta augmented with a
`senderIdentifier` that defaults to the sender-channel identifier of the
initiator but is overridden by any `senderIdentifier` already present in
the sender meta. -/
theorem forwardTransferCreation_outgoing_params
    (st : SenderTransfer) (ct rp : String) (env : ForwardCreationEnv)
    (sc rc : RouterChannel)
    (hroute : routingInfoPresent st.meta)
    (hsc : env.senderChannelRes = .ok (some sc))
    (hrc : env.recipientChannelRes = .ok (some rc))
    (hswapok : forwardSwapNeeded st sc → env.swapRes.isError = false) :
    ∃ p, (forwardTransferCreation st ct rp env).2.head? =
        some (.generatedParams p) ∧
      p.channelAddress = rc.channelAddress ∧
      p.assetId = (firstPath st.meta).recipientAssetId.getD st.assetId ∧
      p.timeout = st.transferTimeout - TRANSFER_DECREMENT ∧
      p.conditionType = ct ∧
      p.publicIdentifier = rp ∧
      p.details = st.transferState.filter (fun kv => kv.1 ≠ "balance") ∧
      p.meta = { st.meta with
        senderIdentifier := some (st.meta.senderIdentifier.getD
          (if st.initiator = sc.bob then sc.bobIdentifier
           else sc.aliceIdentifier)) } ∧
      (¬ forwardSwapNeeded st sc → p.amount = st.balance.amount.headD "") ∧
      (∀ v, forwardSwapNeeded st sc → env.swapRes = .ok v → p.amount = v) := by
  refine ⟨forwardParams st ct rp sc rc
      (if forwardSwapNeeded st sc then
        match env.swapRes with
        | .ok v => v
        | .fail _ => st.balance.amount.headD ""
       else st.balance.amount.headD "")
      ((firstPath st.meta).recipientAssetId.getD st.assetId),
    ?_, rfl, rfl, rfl, rfl, rfl, rfl, rfl, ?_, ?_⟩
  · rw [forwardTransferCreation_happy_nav st ct rp env sc rc hroute hsc hrc hswapok]
    exact forwardAttemptStage_head st rp (st.meta.routingId.getD "") _ rc
      (st.meta.requireOnline.getD false) env.attemptEnv env.cancelEnv
  · intro hnot
    simp [forwardParams, if_neg hnot]
  · intro v hsw hv
    simp [forwardParams, if_pos hsw, hv]

/-- C4 witness: the amended parameter characterization applied to a
concrete happy-path forwarding. -/
theorem forwardTransferCreation_outgoing_params_witness :
    ∃ p, (forwardTransferCreation
        { transferId := "0xst", channelAddress := "0xsc",
          balance := ⟨["100", "0"], ["0xr", "0xs"]⟩,
          assetId := "0xasset", initiator := "0xb", responder := "0xr",
          transferTimeout := 1000, transferDefinition := "0xdef",
          transferState := [("balance", "bal"), ("lockHash", "0xhash")],
          meta := { routingId := some "rid",
                    path := some [⟨some "vectorR", none, none⟩],
                    requireOnline := none, senderIdentifier := none } }
        "HashlockTransfer" "vectorRouter"
        { senderChannelRes :=
            .ok (some ⟨"0xsc", "0xa", "0xb", "vectorA", "vectorB", ⟨1⟩⟩),
          swapRes := .ok "100",
          recipientChannelRes :=
            .ok (some ⟨"0xrc", "0xa2", "0xb2", "vectorR2", "vectorR", ⟨1⟩⟩),
          attemptEnv := { collateralRes := .ok (), recipientOnline := true,
                          createRes := .ok "created" },
          cancelEnv := { resolveRes := .ok "cancelled",
                         enqueueRes := .ok () } }).2.head? =
        some (.generatedParams p) ∧
      p.channelAddress = "0xrc" ∧
      p.assetId = "0xasset" ∧
      p.timeout = 1000 - TRANSFER_DECREMENT ∧
      p.conditionType = "HashlockTransfer" ∧
      p.publicIdentifier = "vectorRouter" ∧
      p.details = [("lockHash", "0xhash")] ∧
      p.meta = { routingId := some "rid",
                 path := some [⟨some "vectorR", none, none⟩],
                 requireOnline := none, senderIdentifier := some "vectorB" } ∧
      (¬ forwardSwapNeeded
          { transferId := "0xst", channelAddress := "0xsc",
            balance := ⟨["100", "0"], ["0xr", "0xs"]⟩,
            assetId := "0xasset", initiator := "0xb", responder := "0xr",
            transferTimeout := 1000, transferDefinition := "0xdef",
            transferState := [("balance", "bal"), ("lockHash", "0xhash")],
            meta := { routingId := some "rid",
                      path := some [⟨some "vectorR", none, none⟩],
                      requireOnline := none, senderIdentifier := none } }
          ⟨"0xsc", "0xa", "0xb", "vectorA", "vectorB", ⟨1⟩⟩ →
        p.amount = "100") ∧
      (∀ v, forwardSwapNeeded
          { transferId := "0xst", channelAddress := "0xsc",
            balance := ⟨["100", "0"], ["0xr", "0xs"]⟩,
            assetId := "0xasset", initiator := "0xb", responder := "0xr",
            transferTimeout := 1000, transferDefinition := "0xdef",
            transferState := [("balance", "bal"), ("lockHash", "0xhash")],
            meta := { routingId := some "rid",
                      path := some [⟨some "vectorR", none, none⟩],
                      requireOnline := none, senderIdentifier := none } }
          ⟨"0xsc", "0xa", "0xb", "vectorA", "vectorB", ⟨1⟩⟩ →
        (VResult.ok "100" : VResult String String) = .ok v → p.amount = v) :=
  forwardTransferCreation_outgoing_params
    { transferId := "0xst", channelAddress := "0xsc",
      balance := ⟨["100", "0"], ["0xr", "0xs"]⟩,
      assetId := "0xasset", initiator := "0xb", responder := "0xr",
      transferTimeout := 1000, transferDefinition := "0xdef",
      transferState := [("balance", "bal"), ("lockHash", "0xhash")],
      meta := { routingId := some "rid",
                path := some [⟨some "vectorR", none, none⟩],
                requireOnline := none, senderIdentifier := none } }
    "HashlockTransfer" "vectorRouter"
    { senderChannelRes :=
        .ok (some ⟨"0xsc", "0xa", "0xb", "vectorA", "vectorB", ⟨1⟩⟩),
      swapRes := .ok "100",
      recipientChannelRes :=
        .ok (some ⟨"0xrc", "0xa2", "0xb2", "vectorR2", "vectorR", ⟨1⟩⟩),
      attemptEnv := { collateralRes := .ok (), recipientOnline := true,
                      createRes := .ok "created" },
      cancelEnv := { resolveRes := .ok "cancelled", enqueueRes := .ok () } }
    ⟨"0xsc", "0xa", "0xb", "vectorA", "vectorB", ⟨1⟩⟩
    ⟨"0xrc", "0xa2", "0xb2", "vectorR2", "vectorR", ⟨1⟩⟩
    ⟨rfl, rfl, rfl⟩ rfl rfl (fun _ => rfl)

/-- C5: when the recipient is offline and `requireOnline` is false (or
absent), the forwarding enqueues a `TRANSFER_CREATION` row with status
PENDING holding the built parameters, the attempt succeeds with an
empty value so it is not treated as a failure (no cancellation path
runs), and a `ReceiverOffline` descriptor is returned upstream; the
sender transfer is neither cancelled nor is any cancellation enqueued. -/
theorem forwardTransferCreation_receiver_offline_queues
    (st : SenderTransfer) (ct rp : String) (env : ForwardCreationEnv)
    (sc rc : RouterChannel)
    (hroute : routingInfoPresent st.meta)
    (hsc : env.senderChannelRes = .ok (some sc))
    (hrc : env.recipientChannelRes = .ok (some rc))
    (hswapok : forwardSwapNeeded st sc → env.swapRes.isError = false)
    (hcoll : env.attemptEnv.collateralRes = .ok ())
    (hoffline : env.attemptEnv.recipientOnline = false)
    (hreq : st.meta.requireOnline.getD false = false) :
    ∃ p, (forwardTransferCreation st ct rp env).2 =
        [.generatedParams p,
         .queueUpdate rc.channelAddress .TRANSFER_CREATION .PENDING (.creation p)] ∧
      (forwardTransferCreation st ct rp env).1 =
        .fail { message := .ReceiverOffline,
                context := { routingId := some (st.meta.routingId.getD ""),
                             senderTransfer := some st.transferId,
                             recipientChannel := some rc.channelAddress } } ∧
      (∀ a b, RouterEffect.submitCancel a b ∉ (forwardTransferCreation st ct rp env).2) ∧
      (∀ a stat pl, RouterEffect.queueUpdate a .TRANSFER_RESOLUTION stat pl ∉
        (forwardTransferCreation st ct rp env).2) := by
  rw [forwardTransferCreation_happy_nav st ct rp env sc rc hroute hsc hrc hswapok, hreq]
  have hatt : ∀ P, attemptTransferWithCollateralization P rc false env.attemptEnv =
      (.ok none, [.queueUpdate rc.channelAddress .TRANSFER_CREATION .PENDING
        (.creation P)]) := by
    intro P
    simp [attemptTransferWithCollateralization, hcoll, hoffline]
  refine ⟨forwardParams st ct rp sc rc
      (if forwardSwapNeeded st sc then
        match env.swapRes with
        | .ok v => v
        | .fail _ => st.balance.amount.headD ""
       else st.balance.amount.headD "")
      ((firstPath st.meta).recipientAssetId.getD st.assetId), ?_, ?_, ?_, ?_⟩ <;>
    simp [forwardAttemptStage, hatt]

/-- C5 witness: a concrete offline recipient with `requireOnline`
absent; the queued row and the `ReceiverOffline` descriptor are
produced. -/
theorem forwardTransferCreation_receiver_offline_witness :
    ∃ p, (forwardTransferCreation
        { transferId := "0xst", channelAddress := "0xsc",
          balance := ⟨["100", "0"], ["0xr", "0xs"]⟩,
          assetId := "0xasset", initiator := "0xb", responder := "0xr",
          transferTimeout := 1000, transferDefinition := "0xdef",
          transferState := [("balance", "bal"), ("lockHash", "0xhash")],
          meta := { routingId := some "rid",
                    path := some [⟨some "vectorR", none, none⟩],
                    requireOnline := none, senderIdentifier := none } }
        "HashlockTransfer" "vectorRouter"
        { senderChannelRes :=
            .ok (some ⟨"0xsc", "0xa", "0xb", "vectorA", "vectorB", ⟨1⟩⟩),
          swapRes := .ok "100",
          recipientChannelRes :=
            .ok (some ⟨"0xrc", "0xa2", "0xb2", "vectorR2", "vectorR", ⟨1⟩⟩),
          attemptEnv := { collateralRes := .ok (), recipientOnline := false,
                          createRes := .ok "created" },
          cancelEnv := { resolveRes := .ok "cancelled",
                         enqueueRes := .ok () } }).2 =
        [.generatedParams p,
         .queueUpdate "0xrc" .TRANSFER_CREATION .PENDING (.creation p)] ∧
      (forwardTransferCreation
        { transferId := "0xst", channelAddress := "0xsc",
          balance := ⟨["100", "0"], ["0xr", "0xs"]⟩,
          assetId := "0xasset", initiator := "0xb", responder := "0xr",
          transferTimeout := 1000, transferDefinition := "0xdef",
          transferState := [("balance", "bal"), ("lockHash", "0xhash")],
          meta := { routingId := some "rid",
                    path := some [⟨some "vectorR", none, none⟩],
                    requireOnline := none, senderIdentifier := none } }
        "HashlockTransfer" "vectorRouter"
        { senderChannelRes :=
            .ok (some ⟨"0xsc", "0xa", "0xb", "vectorA", "vectorB", ⟨1⟩⟩),
          swapRes := .ok "100",
          recipientChannelRes :=
            .ok (some ⟨"0xrc", "0xa2", "0xb2", "vectorR2", "vectorR", ⟨1⟩⟩),
          attemptEnv := { collateralRes := .ok (), recipientOnline := false,
                          createRes := .ok "created" },
          cancelEnv := { resolveRes := .ok "cancelled",
                         enqueueRes := .ok () } }).1 =
        .fail { message := .ReceiverOffline,
                context := { routingId := some "rid",
                             senderTransfer := some "0xst",
                             recipientChannel := some "0xrc" } } ∧
      (∀ a b, RouterEffect.submitCancel a b ∉ (forwardTransferCreation
        { transferId := "0xst", channelAddress := "0xsc",
          balance := ⟨["100", "0"], ["0xr", "0xs"]⟩,
          assetId := "0xasset", initiator := "0xb", responder := "0xr",
          transferTimeout := 1000, transferDefinition := "0xdef",
          transferState := [("balance", "bal"), ("lockHash", "0xhash")],
          meta := { routingId := some "rid",
                    path := some [⟨some "vectorR", none, none⟩],
                    requireOnline := none, senderIdentifier := none } }
        "HashlockTransfer" "vectorRouter"
        { senderChannelRes :=
            .ok (some ⟨"0xsc", "0xa", "0xb", "vectorA", "vectorB", ⟨1⟩⟩),
          swapRes := .ok "100",
          recipientChannelRes :=
            .ok (some ⟨"0xrc", "0xa2", "0xb2", "vectorR2", "vectorR", ⟨1⟩⟩),
          attemptEnv := { collateralRes := .ok (), recipientOnline := false,
                          createRes := .ok "created" },
          cancelEnv := { resolveRes := .ok "cancelled",
                         enqueueRes := .ok () } }).2) ∧
      (∀ a stat pl, RouterEffect.queueUpdate a .TRANSFER_RESOLUTION stat pl ∉
        (forwardTransferCreation
        { transferId := "0xst", channelAddress := "0xsc",
          balance := ⟨["100", "0"], ["0xr", "0xs"]⟩,
          assetId := "0xasset", initiator := "0xb", responder := "0xr",
          transferTimeout := 1000, transferDefinition := "0xdef",
          transferState := [("balance", "bal"), ("lockHash", "0xhash")],
          meta := { routingId := some "rid",
                    path := some [⟨some "vectorR", none, none⟩],
                    requireOnline := none, senderIdentifier := none } }
        "HashlockTransfer" "vectorRouter"
        { senderChannelRes :=
            .ok (some ⟨"0xsc", "0xa", "0xb", "vectorA", "vectorB", ⟨1⟩⟩),
          swapRes := .ok "100",
          recipientChannelRes :=
            .ok (some ⟨"0xrc", "0xa2", "0xb2", "vectorR2", "vectorR", ⟨1⟩⟩),
          attemptEnv := { collateralRes := .ok (), recipientOnline := false,
                          createRes := .ok "created" },
          cancelEnv := { resolveRes := .ok "cancelled",
                         enqueueRes := .ok () } }).2) :=
  forwardTransferCreation_receiver_offline_queues
    { transferId := "0xst", channelAddress := "0xsc",
      balance := ⟨["100", "0"], ["0xr", "0xs"]⟩,
      assetId := "0xasset", initiator := "0xb", responder := "0xr",
      transferTimeout := 1000, transferDefinition := "0xdef",
      transferState := [("balance", "bal"), ("lockHash", "0xhash")],
      meta := { routingId := some "rid",
                path := some [⟨some "vectorR", none, none⟩],
                requireOnline := none, senderIdentifier := none } }
    "HashlockTransfer" "vectorRouter"
    { senderChannelRes :=
        .ok (some ⟨"0xsc", "0xa", "0xb", "vectorA", "vectorB", ⟨1⟩⟩),
      swapRes := .ok "100",
      recipientChannelRes :=
        .ok (some ⟨"0xrc", "0xa2", "0xb2", "vectorR2", "vectorR", ⟨1⟩⟩),
      attemptEnv := { collateralRes := .ok (), recipientOnline := false,
                      createRes := .ok "created" },
      cancelEnv := { resolveRes := .ok "cancelled", enqueueRes := .ok () } }
    ⟨"0xsc", "0xa", "0xb", "vectorA", "vectorB", ⟨1⟩⟩
    ⟨"0xrc", "0xa2", "0xb2", "vectorR2", "vectorR", ⟨1⟩⟩
    ⟨rfl, rfl, rfl⟩ rfl rfl (fun _ => rfl) rfl rfl rfl

/-- C6: when the recipient channel cannot be resolved (lookup error or
absent), the sender-side transfer is cancelled and a
`RecipientChannelNotFound` failure is returned whose context reports
`senderTransferCancellation` as `executed` when the zero-out resolve ran
immediately and as `enqueued` when it was queued for retry. -/
theorem forwardTransferCreation_recipient_missing_cancels
    (st : SenderTransfer) (ct rp : String) (env : ForwardCreationEnv)
    (sc : RouterChannel)
    (hroute : routingInfoPresent st.meta)
    (hsc : env.senderChannelRes = .ok (some sc))
    (hswapok : forwardSwapNeeded st sc → env.swapRes.isError = false)
    (hmiss : env.recipientChannelRes = .ok none ∨
      ∃ m, env.recipientChannelRes = .fail m) :
    (∀ v, env.cancelEnv.resolveRes = .ok v →
      (forwardTransferCreation st ct rp env).1 =
        .fail { message := .RecipientChannelNotFound,
                context := { senderChannel := some st.channelAddress,
                             senderTransfer := some st.transferId,
                             routingId := some (st.meta.routingId.getD ""),
                             senderTransferCancellation := some .executed } } ∧
      RouterEffect.submitCancel st.channelAddress st.transferId ∈
        (forwardTransferCreation st ct rp env).2) ∧
    (∀ m, env.cancelEnv.resolveRes = .fail m → env.cancelEnv.enqueueRes = .ok () →
      (forwardTransferCreation st ct rp env).1 =
        .fail { message := .RecipientChannelNotFound,
                context := { senderChannel := some st.channelAddress,
                             senderTransfer := some st.transferId,
                             routingId := some (st.meta.routingId.getD ""),
                             senderTransferCancellation := some .enqueued } } ∧
      RouterEffect.queueUpdate st.channelAddress .TRANSFER_RESOLUTION .PENDING
        (.resolution ⟨st.channelAddress, st.transferId, "0x", rp⟩) ∈
        (forwardTransferCreation st ct rp env).2) := by
  rw [forwardTransferCreation_recipient_missing_nav st ct rp env sc hroute hsc
    hswapok hmiss]
  constructor
  · intro v hv
    constructor <;>
      simp [cancelSenderTransferAndReturnError, cancelCreatedTransfer, hv]
  · intro m hm hq
    constructor <;>
      simp [cancelSenderTransferAndReturnError, cancelCreatedTransfer, hm, hq]

/-- C6 witness: a concrete forwarding whose recipient channel is absent
and whose zero-out resolve succeeds immediately, reported `executed`. -/
theorem forwardTransferCreation_recipient_missing_witness :
    (forwardTransferCreation
      { transferId := "0xst", channelAddress := "0xsc",
        balance := ⟨["100", "0"], ["0xr", "0xs"]⟩,
        assetId := "0xasset", initiator := "0xb", responder := "0xr",
        transferTimeout := 1000, transferDefinition := "0xdef",
        transferState := [("balance", "bal"), ("lockHash", "0xhash")],
        meta := { routingId := some "rid",
                  path := some [⟨some "vectorR", none, none⟩],
                  requireOnline := none, senderIdentifier := none } }
      "HashlockTransfer" "vectorRouter"
      { senderChannelRes :=
          .ok (some ⟨"0xsc", "0xa", "0xb", "vectorA", "vectorB", ⟨1⟩⟩),
        swapRes := .ok "100",
        recipientChannelRes := .ok none,
        attemptEnv := { collateralRes := .ok (), recipientOnline := true,
                        createRes := .ok "created" },
        cancelEnv := { resolveRes := .ok "cancelled",
                       enqueueRes := .ok () } }).1 =
      .fail { message := .RecipientChannelNotFound,
              context := { senderChannel := some "0xsc",
                           senderTransfer := some "0xst",
                           routingId := some "rid",
                           senderTransferCancellation := some .executed } } ∧
    RouterEffect.submitCancel "0xsc" "0xst" ∈
      (forwardTransferCreation
        { transferId := "0xst", channelAddress := "0xsc",
          balance := ⟨["100", "0"], ["0xr", "0xs"]⟩,
          assetId := "0xasset", initiator := "0xb", responder := "0xr",
          transferTimeout := 1000, transferDefinition := "0xdef",
          transferState := [("balance", "bal"), ("lockHash", "0xhash")],
          meta := { routingId := some "rid",
                    path := some [⟨some "vectorR", none, none⟩],
                    requireOnline := none, senderIdentifier := none } }
        "HashlockTransfer" "vectorRouter"
        { senderChannelRes :=
            .ok (some ⟨"0xsc", "0xa", "0xb", "vectorA", "vectorB", ⟨1⟩⟩),
          swapRes := .ok "100",
          recipientChannelRes := .ok none,
          attemptEnv := { collateralRes := .ok (), recipientOnline := true,
                          createRes := .ok "created" },
          cancelEnv := { resolveRes := .ok "cancelled",
                         enqueueRes := .ok () } }).2 :=
  (forwardTransferCreation_recipient_missing_cancels
    { transferId := "0xst", channelAddress := "0xsc",
      balance := ⟨["100", "0"], ["0xr", "0xs"]⟩,
      assetId := "0xasset", initiator := "0xb", responder := "0xr",
      transferTimeout := 1000, transferDefinition := "0xdef",
      transferState := [("balance", "bal"), ("lockHash", "0xhash")],
      meta := { routingId := some "rid",
                path := some [⟨some "vectorR", none, none⟩],
                requireOnline := none, senderIdentifier := none } }
    "HashlockTransfer" "vectorRouter"
    { senderChannelRes :=
        .ok (some ⟨"0xsc", "0xa", "0xb", "vectorA", "vectorB", ⟨1⟩⟩),
      swapRes := .ok "100",
      recipientChannelRes := .ok none,
      attemptEnv := { collateralRes := .ok (), recipientOnline := true,
                      createRes := .ok "created" },
      cancelEnv := { resolveRes := .ok "cancelled", enqueueRes := .ok () } }
    ⟨"0xsc", "0xa", "0xb", "vectorA", "vectorB", ⟨1⟩⟩
    ⟨rfl, rfl, rfl⟩ rfl (fun _ => rfl) (Or.inl rfl)).1 "cancelled" rfl

/-- C7: when the transfer meta is missing (or carries an empty)
`routingId`, has no `path[0]`, or `path[0].recipient` is missing or
empty, the forwarding fails with `InvalidForwardingInfo` and performs
nothing: no effect at all, in particular no cancel submission and no
enqueued cancellation. -/
theorem forwardTransferCreation_invalid_forwarding_info
    (st : SenderTransfer) (ct rp : String) (env : ForwardCreationEnv)
    (hmissing : strTruthy st.meta.routingId = false ∨
      ((st.meta.path.getD []).head?) = none ∨
      strTruthy (((st.meta.path.getD []).head?).bind (fun p => p.recipient)) = false) :
    forwardTransferCreation st ct rp env =
      (.fail { message := .InvalidForwardingInfo,
               context := { senderTransfer := some st.transferId,
                            senderChannel := some st.channelAddress } }, []) ∧
    (∀ a b, RouterEffect.submitCancel a b ∉ (forwardTransferCreation st ct rp env).2) ∧
    (∀ a stat pl, RouterEffect.queueUpdate a .TRANSFER_RESOLUTION stat pl ∉
      (forwardTransferCreation st ct rp env).2) := by
  have hcond : (!(strTruthy st.meta.routingId) ||
      ((st.meta.path.getD []).head?).isNone ||
      !(strTruthy (((st.meta.path.getD []).head?).bind (fun p => p.recipient)))) = true := by
    rcases hmissing with h | h | h <;> simp [h]
  refine ⟨?_, ?_, ?_⟩ <;> simp [forwardTransferCreation, hcond]

/-- C7 witness: a concrete event whose meta has no `routingId`; the
forwarding fails with `InvalidForwardingInfo` and the trace is empty. -/
theorem forwardTransferCreation_invalid_forwarding_info_witness :
    forwardTransferCreation
      { transferId := "0xst", channelAddress := "0xsc",
        balance := ⟨["100", "0"], ["0xr", "0xs"]⟩,
        assetId := "0xasset", initiator := "0xb", responder := "0xr",
        transferTimeout := 1000, transferDefinition := "0xdef",
        transferState := [("balance", "bal"), ("lockHash", "0xhash")],
        meta := { routingId := none,
                  path := some [⟨some "vectorR", none, none⟩],
                  requireOnline := none, senderIdentifier := none } }
      "HashlockTransfer" "vectorRouter"
      { senderChannelRes :=
          .ok (some ⟨"0xsc", "0xa", "0xb", "vectorA", "vectorB", ⟨1⟩⟩),
        swapRes := .ok "100",
        recipientChannelRes :=
          .ok (some ⟨"0xrc", "0xa2", "0xb2", "vectorR2", "vectorR", ⟨1⟩⟩),
        attemptEnv := { collateralRes := .ok (), recipientOnline := true,
                        createRes := .ok "created" },
        cancelEnv := { resolveRes := .ok "cancelled", enqueueRes := .ok () } } =
      (.fail { message := .InvalidForwardingInfo,
               context := { senderTransfer := some "0xst",
                            senderChannel := some "0xsc" } }, []) :=
  (forwardTransferCreation_invalid_forwarding_info
    { transferId := "0xst", channelAddress := "0xsc",
      balance := ⟨["100", "0"], ["0xr", "0xs"]⟩,
      assetId := "0xasset", initiator := "0xb", responder := "0xr",
      transferTimeout := 1000, transferDefinition := "0xdef",
      transferState := [("balance", "bal"), ("lockHash", "0xhash")],
      meta := { routingId := none,
                path := some [⟨some "vectorR", none, none⟩],
                requireOnline := none, senderIdentifier := none } }
    "HashlockTransfer" "vectorRouter"
    { senderChannelRes :=
        .ok (some ⟨"0xsc", "0xa", "0xb", "vectorA", "vectorB", ⟨1⟩⟩),
      swapRes := .ok "100",
      recipientChannelRes :=
        .ok (some ⟨"0xrc", "0xa2", "0xb2", "vectorR2", "vectorR", ⟨1⟩⟩),
      attemptEnv := { collateralRes := .ok (), recipientOnline := true,
                      createRes := .ok "created" },
      cancelEnv := { resolveRes := .ok "cancelled", enqueueRes := .ok () } }
    (Or.inl rfl)).1

/-- C8: for every resolved outgoing transfer, the router looks up the
transfers sharing its routingId and selects the (first) one whose
responder is the router signer address; if the lookup fails or no such
transfer exists, it fails with `IncomingChannelNotFound` doing nothing;
otherwise it submits a resolve on that sender-side transfer with the
same resolver, returning its value on success, and on failure enqueues a
`TRANSFER_RESOLUTION` row with the same parameters and fails with
`ErrorResolvingTransfer`; it never submits a cancellation. -/
theorem forwardTransferResolution_resolves_sender_side
    (data : ResolutionData) (rp rsa : String) (env : ForwardResolutionEnv) :
    ((env.transfersRes.isError = true ∨
      (∃ ts, env.transfersRes = .ok ts ∧
        ts.find? (fun t => t.responder == rsa) = none)) →
      (forwardTransferResolution data rp rsa env).1 =
        .fail ⟨.IncomingChannelNotFound, data.routingId⟩ ∧
      (forwardTransferResolution data rp rsa env).2 = []) ∧
    (∀ ts t, env.transfersRes = .ok ts →
      ts.find? (fun rec => rec.responder == rsa) = some t →
      t ∈ ts ∧ t.responder = rsa ∧
      RouterEffect.submitResolve ⟨t.channelAddress, t.transferId,
          data.transferResolver, rp⟩ ∈ (forwardTransferResolution data rp rsa env).2 ∧
      (∀ v, env.resolveRes = .ok v →
        (forwardTransferResolution data rp rsa env).1 = .ok v ∧
        (forwardTransferResolution data rp rsa env).2 =
          [.submitResolve ⟨t.channelAddress, t.transferId,
            data.transferResolver, rp⟩]) ∧
      (∀ m, env.resolveRes = .fail m →
        (forwardTransferResolution data rp rsa env).1 =
          .fail ⟨.ErrorResolvingTransfer, data.routingId⟩ ∧
        (forwardTransferResolution data rp rsa env).2 =
          [.submitResolve ⟨t.channelAddress, t.transferId,
            data.transferResolver, rp⟩,
           .queueUpdate t.channelAddress .TRANSFER_RESOLUTION .PENDING
             (.resolution ⟨t.channelAddress, t.transferId,
               data.transferResolver, rp⟩)])) ∧
    (∀ a b, RouterEffect.submitCancel a b ∉
      (forwardTransferResolution data rp rsa env).2) := by
  refine ⟨?_, ?_, ?_⟩
  · rintro (herr | ⟨ts, hts, hfind⟩)
    · rcases h : env.transfersRes with ts | m
      · rw [h] at herr
        exact absurd herr (by simp [VResult.isError])
      · constructor <;> simp [forwardTransferResolution, h]
    · constructor <;> simp [forwardTransferResolution, hts, hfind]
  · intro ts t hts hfind
    have hmem : t ∈ ts := List.mem_of_find?_eq_some hfind
    have hresp : t.responder = rsa := by
      have := List.find?_some hfind
      simpa using this
    refine ⟨hmem, hresp, ?_, ?_, ?_⟩
    · rcases h : env.resolveRes with v | m <;>
        simp [forwardTransferResolution, hts, hfind, h]
    · intro v hv
      constructor <;> simp [forwardTransferResolution, hts, hfind, hv]
    · intro m hm
      constructor <;> simp [forwardTransferResolution, hts, hfind, hm]
  · intro a b
    rcases h : env.transfersRes with ts | m
    · rcases hf : ts.find? (fun rec => rec.responder == rsa) with t | t
      · simp [forwardTransferResolution, h, hf]
      · rcases hr : env.resolveRes with v | m2 <;>
          simp [forwardTransferResolution, h, hf, hr]
    · simp [forwardTransferResolution, h]

/-- C8 witness: a concrete resolution whose routingId lookup returns two
transfers; the one where the router is responder is resolved with the
same resolver. -/
theorem forwardTransferResolution_witness :
    RouterEffect.submitResolve ⟨"0xsc", "0xsenderT", "0xpreimage", "vectorRouter"⟩ ∈
      (forwardTransferResolution ⟨"0xrc", "0xrecvT", "0xpreimage", "rid"⟩
        "vectorRouter" "0xrouter"
        { transfersRes := .ok
            [⟨"0xrecvT", "0xrc", "0xbob"⟩, ⟨"0xsenderT", "0xsc", "0xrouter"⟩],
          resolveRes := .ok "resolved" }).2 :=
  ((forwardTransferResolution_resolves_sender_side
      ⟨"0xrc", "0xrecvT", "0xpreimage", "rid"⟩ "vectorRouter" "0xrouter"
      { transfersRes := .ok
          [⟨"0xrecvT", "0xrc", "0xbob"⟩, ⟨"0xsenderT", "0xsc", "0xrouter"⟩],
        resolveRes := .ok "resolved" }).2.1
      [⟨"0xrecvT", "0xrc", "0xbob"⟩, ⟨"0xsenderT", "0xsc", "0xrouter"⟩]
      ⟨"0xsenderT", "0xsc", "0xrouter"⟩ rfl (by decide)).2.2.1

/-- `attemptedPayloads` distributes over trace concatenation. -/
theorem attemptedPayloads_append (l1 l2 : List RouterEffect) :
    attemptedPayloads (l1 ++ l2) = attemptedPayloads l1 ++ attemptedPayloads l2 := by
  induction l1 with
  | nil => rfl
  | cons x rest ih => cases x <;> simp [attemptedPayloads, ih]

/-- `statusEventsFor` distributes over trace concatenation. -/
theorem statusEventsFor_append (id : Nat) (l1 l2 : List RouterEffect) :
    statusEventsFor id (l1 ++ l2) =
      statusEventsFor id l1 ++ statusEventsFor id l2 := by
  induction l1 with
  | nil => rfl
  | cons x rest ih =>
    cases x <;> simp [statusEventsFor, ih]
    split <;> simp [ih]

/-- Processing one queued update attempts exactly its payload. -/
theorem attemptedPayloads_process (u : QueuedRouterUpdate) (o : AttemptOutcome) :
    attemptedPayloads (processQueuedUpdate u o).1 = [u.payload] := by
  rcases u with ⟨uid, kind, pl⟩
  cases kind <;> cases o <;>
    simp [processQueuedUpdate, queuedAttemptEffect, attemptedPayloads]

/-- The status events a single processed update writes for its own
row: PROCESSING first, then on failure PENDING exactly when the
underlying error is a timeout and FAILED otherwise. -/
theorem statusEventsFor_process_self (u : QueuedRouterUpdate) (o : AttemptOutcome) :
    statusEventsFor u.id (processQueuedUpdate u o).1 =
      (RouterUpdateStatus.PROCESSING, (none : Option NodeErrReason)) ::
        (match o with
         | .success => []
         | .failure e =>
           [((if e == some .Timeout then RouterUpdateStatus.PENDING
              else RouterUpdateStatus.FAILED), e)]) := by
  rcases u with ⟨uid, kind, pl⟩
  cases kind <;> cases o <;>
    simp [processQueuedUpdate, queuedAttemptEffect, statusEventsFor]

/-- Processing one queued update writes no status for other rows. -/
theorem statusEventsFor_process_other (id : Nat) (u : QueuedRouterUpdate)
    (o : AttemptOutcome) (h : u.id ≠ id) :
    statusEventsFor id (processQueuedUpdate u o).1 = [] := by
  rcases u with ⟨uid, kind, pl⟩
  cases kind <;> cases o <;>
    simp [processQueuedUpdate, queuedAttemptEffect, statusEventsFor, h]

/-- Draining updates writes no status for a row id not in the batch. -/
theorem statusEventsFor_drain_not_mem (outcomes : Nat → AttemptOutcome) (id : Nat) :
    ∀ (us : List QueuedRouterUpdate) (i0 : Nat),
      id ∉ us.map (fun u => u.id) →
      statusEventsFor id (drainQueuedUpdates outcomes us i0).1 = [] := by
  intro us
  induction us with
  | nil => intro i0 _; rfl
  | cons u rest ih =>
    intro i0 hmem
    simp only [List.map_cons, List.mem_cons] at hmem
    push_neg at hmem
    simp only [drainQueuedUpdates]
    rw [statusEventsFor_append, statusEventsFor_process_other id u _ (fun he => hmem.1 he.symm),
      ih (i0 + 1) hmem.2]
    rfl

/-- Unfolding equation for the trace of a non-empty drain. -/
theorem drainQueuedUpdates_cons (outcomes : Nat → AttemptOutcome)
    (u : QueuedRouterUpdate) (rest : List QueuedRouterUpdate) (i0 : Nat) :
    (drainQueuedUpdates outcomes (u :: rest) i0).1 =
      (processQueuedUpdate u (outcomes i0)).1 ++
        (drainQueuedUpdates outcomes rest (i0 + 1)).1 := rfl

/-- The drain processes the queued updates serially in list order:
the attempted payloads are exactly the updates' payloads in order, each
update's PROCESSING marker immediately precedes its attempt, and (for
distinct row ids) each row's status events follow the timeout-aware
failure policy. -/
theorem drainQueuedUpdates_spec (outcomes : Nat → AttemptOutcome) :
    ∀ (us : List QueuedRouterUpdate) (i0 : Nat),
      attemptedPayloads (drainQueuedUpdates outcomes us i0).1 =
        us.map (fun u => u.payload) ∧
      (∀ j, ∀ hj : j < us.length,
        ∃ pre post, (drainQueuedUpdates outcomes us i0).1 =
          pre ++ RouterEffect.setUpdateStatus (us.get ⟨j, hj⟩).id .PROCESSING none ::
            queuedAttemptEffect (us.get ⟨j, hj⟩) :: post) ∧
      ((us.map (fun u => u.id)).Nodup →
        ∀ j, ∀ hj : j < us.length,
          statusEventsFor (us.get ⟨j, hj⟩).id (drainQueuedUpdates outcomes us i0).1 =
            (RouterUpdateStatus.PROCESSING, (none : Option NodeErrReason)) ::
              (match outcomes (i0 + j) with
               | .success => []
               | .failure e =>
                 [((if e == some .Timeout then RouterUpdateStatus.PENDING
                    else RouterUpdateStatus.FAILED), e)])) := by
  intro us
  induction us with
  | nil =>
    intro i0
    refine ⟨rfl, ?_, ?_⟩
    · intro j hj
      exact absurd hj (by simp)
    · intro _ j hj
      exact absurd hj (by simp)
  | cons u rest ih =>
    intro i0
    obtain ⟨ihpay, ihpre, ihstat⟩ := ih (i0 + 1)
    refine ⟨?_, ?_, ?_⟩
    · rw [drainQueuedUpdates_cons, attemptedPayloads_append,
        attemptedPayloads_process, ihpay]
      rfl
    · intro j hj
      cases j with
      | zero =>
        refine ⟨[], (match outcomes i0 with
            | .success => []
            | .failure e =>
              [RouterEffect.setUpdateStatus u.id
                (if e == some .Timeout then .PENDING else .FAILED) e]) ++
            (drainQueuedUpdates outcomes rest (i0 + 1)).1, ?_⟩
        rw [drainQueuedUpdates_cons]
        rcases u with ⟨uid, kind, pl⟩
        cases kind <;> rcases ho : outcomes i0 with _ | e <;>
          simp [processQueuedUpdate, queuedAttemptEffect, ho]
      | succ jj =>
        have hjj : jj < rest.length := by simpa using hj
        obtain ⟨pre, post, hsplit⟩ := ihpre jj hjj
        refine ⟨(processQueuedUpdate u (outcomes i0)).1 ++ pre, post, ?_⟩
        rw [drainQueuedUpdates_cons, hsplit]
        simp
    · intro hnodup j hj
      simp only [List.map_cons, List.nodup_cons] at hnodup
      cases j with
      | zero =>
        have hg : ((u :: rest).get ⟨0, hj⟩) = u := rfl
        rw [hg, drainQueuedUpdates_cons, statusEventsFor_append,
          statusEventsFor_process_self,
          statusEventsFor_drain_not_mem outcomes u.id rest (i0 + 1) hnodup.1,
          List.append_nil, Nat.add_zero]
      | succ jj =>
        have hjj : jj < rest.length := by simpa using hj
        have hne : u.id ≠ (rest.get ⟨jj, hjj⟩).id := by
          intro he
          exact hnodup.1 (by rw [he]; exact List.mem_map_of_mem _ (rest.get_mem _ _))
        have hg : ((u :: rest).get ⟨jj + 1, hj⟩) = rest.get ⟨jj, hjj⟩ := rfl
        rw [hg, drainQueuedUpdates_cons, statusEventsFor_append,
          statusEventsFor_process_other _ u _ hne]
        have hrec := ihstat hnodup.2 jj hjj
        rw [hrec]
        simp only [List.nil_append]
        have harith : i0 + 1 + jj = i0 + (jj + 1) := by omega
        rw [harith]

/-- With a found channel, the check-in trace is the PENDING-row load
followed by the drain of the queued updates. -/
theorem handleIsAlive_effects (ca : String) (env : IsAliveEnv)
    (hchan : env.channelRes = .ok (some ())) :
    (handleIsAlive ca false env).2 =
      RouterEffect.getQueuedUpdates ca .PENDING ::
        (drainQueuedUpdates env.outcomes env.updates 0).1 := by
  unfold handleIsAlive
  rw [hchan]
  rcases h : drainQueuedUpdates env.outcomes env.updates 0 with ⟨effects, erroredIds⟩
  by_cases hi : erroredIds.isEmpty <;> simp [h, hi]

/-- C9: with `skipCheckIn` true, `handleIsAlive` returns success
without touching the queue; otherwise (channel found) it loads the
channel's PENDING queued updates and processes them in the order the
store returns them, marking each PROCESSING immediately before its
attempt, and on a failed attempt sets the row's status to PENDING
exactly when the underlying error is a timeout and to FAILED
otherwise. -/
theorem handleIsAlive_checkin_policy (ca : String) (env : IsAliveEnv) :
    (handleIsAlive ca true env = (.ok (), [])) ∧
    (env.channelRes = .ok (some ()) →
      (handleIsAlive ca false env).2.head? =
        some (.getQueuedUpdates ca .PENDING) ∧
      attemptedPayloads (handleIsAlive ca false env).2 =
        env.updates.map (fun u => u.payload) ∧
      (∀ j, ∀ hj : j < env.updates.length,
        ∃ pre post, (handleIsAlive ca false env).2 =
          pre ++ RouterEffect.setUpdateStatus (env.updates.get ⟨j, hj⟩).id
              .PROCESSING none ::
            queuedAttemptEffect (env.updates.get ⟨j, hj⟩) :: post) ∧
      ((env.updates.map (fun u => u.id)).Nodup →
        ∀ j, ∀ hj : j < env.updates.length,
          statusEventsFor (env.updates.get ⟨j, hj⟩).id
              (handleIsAlive ca false env).2 =
            (RouterUpdateStatus.PROCESSING, (none : Option NodeErrReason)) ::
              (match env.outcomes j with
               | .success => []
               | .failure e =>
                 [((if e == some .Timeout then RouterUpdateStatus.PENDING
                    else RouterUpdateStatus.FAILED), e)]))) := by
  obtain ⟨hpay, hpre, hstat⟩ := drainQueuedUpdates_spec env.outcomes env.updates 0
  refine ⟨by simp [handleIsAlive], fun hchan => ?_⟩
  rw [handleIsAlive_effects ca env hchan]
  refine ⟨rfl, ?_, ?_, ?_⟩
  · show attemptedPayloads ((drainQueuedUpdates env.outcomes env.updates 0).1) = _
    exact hpay
  · intro j hj
    obtain ⟨pre, post, hsplit⟩ := hpre j hj
    refine ⟨RouterEffect.getQueuedUpdates ca .PENDING :: pre, post, ?_⟩
    rw [hsplit]
    rfl
  · intro hnodup j hj
    have hrec := hstat hnodup j hj
    rw [Nat.zero_add] at hrec
    show statusEventsFor _ ((drainQueuedUpdates env.outcomes env.updates 0).1) = _
    exact hrec

/-- C9 witness: a concrete check-in with two queued updates, the first
succeeding and the second failing with a timeout; the second row's
status events are PROCESSING then PENDING. -/
theorem handleIsAlive_checkin_policy_witness :
    statusEventsFor 2
      (handleIsAlive "0xchan" false
        { channelRes := .ok (some ()),
          updates :=
            [⟨1, .TRANSFER_CREATION,
               .creation ⟨"0xrc", "100", "0xa", 928, "T", "vectorRouter", [],
                 ⟨none, none, none, none⟩⟩⟩,
             ⟨2, .TRANSFER_RESOLUTION,
               .resolution ⟨"0xsc", "0xt", "0xr", "vectorRouter"⟩⟩],
          outcomes := fun i =>
            if i = 0 then .success else .failure (some .Timeout) }).2 =
      [(RouterUpdateStatus.PROCESSING, (none : Option NodeErrReason)),
       (RouterUpdateStatus.PENDING, some NodeErrReason.Timeout)] :=
  ((handleIsAlive_checkin_policy "0xchan"
    { channelRes := .ok (some ()),
      updates :=
        [⟨1, .TRANSFER_CREATION,
           .creation ⟨"0xrc", "100", "0xa", 928, "T", "vectorRouter", [],
             ⟨none, none, none, none⟩⟩⟩,
         ⟨2, .TRANSFER_RESOLUTION,
           .resolution ⟨"0xsc", "0xt", "0xr", "vectorRouter"⟩⟩],
      outcomes := fun i =>
        if i = 0 then .success else .failure (some .Timeout) }).2
    rfl).2.2.2 (by decide) 1 (by decide)

/-- C3 witness: with a first attempt failing on `BadSignatures` and a
second attempt succeeding, the retry policy shows the first call was a
retriable signature failure. -/
theorem engineDeposit_retries_witness :
    ∃ e, (fun n => if n = 0 then
        (VResult.fail ⟨.BadSignatures, none⟩ : VResult Unit OutboundErr)
      else .ok ()) 0 = .fail e ∧ recoveryFailed e = true :=
  (engineDeposit_retries_only_bad_signatures (fun n => if n = 0 then
      (VResult.fail ⟨.BadSignatures, none⟩ : VResult Unit OutboundErr)
    else .ok ())).2.2.2.1 0 (by decide)
